import Mathlib

/-!
Verification development for the timsconvert extraction / normalization /
streaming engine (`timsconvert/parse.py` and `timsconvert/write.py`).

The Python code is shallowly embedded as executable Lean definitions:

* numeric data (m/z, intensity, mobility, retention time, …) is modelled
  over `ℚ`; a pandas/NumPy float `NaN` used as a "missing" marker (notably
  precursor charge states) is modelled as `Option ℚ` with `none` for NaN;
* NumPy arrays are Lean lists; `np.unique(..., axis=0)` is modelled as
  "lexicographically sorted list of the distinct rows", which is its
  defining value-level behaviour;
* the vendor SDK decode calls (`tims_read_scans_v2`, `tims_index_to_mz`,
  `tims_scannum_to_oneoverk0`, `tims_oneoverk0_to_ccs_for_mz`,
  `tims_extract_profile_for_frame`,
  `tims_extract_centroided_spectrum_for_frame_v2`) are opaque collaborators
  per the spec and appear as function-valued fields of `TdfData`;
  `tims_read_scans_v2` composed with the length-preserving vectorized
  `tims_index_to_mz` is modelled as a single per-sub-scan decode that
  already yields m/z values;
* Python exceptions (IndexError on an empty table lookup, AttributeError
  on `None.size`, NameError on an unbound loop variable) are modelled with
  `Except String`;
* the psims / file-system sink is out of scope; the serializer model
  records, per written spectrum, its assigned scan number, the final scan
  dictionary, and the optional precursor `spectrum_reference` scan number.
-/

/-- Extraction mode: the `mode` command line parameter, one of the strings
`"raw"`, `"centroid"`, `"profile"` accepted by the code. -/
inductive Mode where
  | raw : Mode
  | centroid : Mode
  | profile : Mode
deriving DecidableEq, Repr

/-- Canonical spectrum record: the dictionary created by
`timsconvert.parse.init_scan_dict`, one `Option` field per key
(`none` models Python `None`). -/
structure ScanDict where
  scan_number : Option ℕ
  scan_type : Option String
  ms_level : Option ℕ
  mz_array : Option (List ℚ)
  intensity_array : Option (List ℚ)
  mobility_array : Option (List ℚ)
  polarity : Option String
  centroided : Option Bool
  retention_time : Option ℚ
  coord : Option String
  total_ion_current : Option ℚ
  base_peak_mz : Option ℚ
  base_peak_intensity : Option ℚ
  high_mz : Option ℚ
  low_mz : Option ℚ
  target_mz : Option ℚ
  isolation_lower_offset : Option ℚ
  isolation_upper_offset : Option ℚ
  selected_ion_mz : Option ℚ
  selected_ion_intensity : Option ℚ
  selected_ion_mobility : Option ℚ
  selected_ion_ccs : Option ℚ
  charge_state : Option ℚ
  collision_energy : Option ℚ
  frame : Option ℤ
  parent_frame : Option ℤ
  parent_scan : Option ℤ
  ms2_no_precursor : Bool
deriving DecidableEq, Repr

/-- `init_scan_dict` from parse.py: every value `None`, except
`ms2_no_precursor` which starts as `False`. -/
def init_scan_dict : ScanDict :=
  { scan_number := none, scan_type := none, ms_level := none, mz_array := none,
    intensity_array := none, mobility_array := none, polarity := none,
    centroided := none, retention_time := none, coord := none,
    total_ion_current := none, base_peak_mz := none, base_peak_intensity := none,
    high_mz := none, low_mz := none, target_mz := none,
    isolation_lower_offset := none, isolation_upper_offset := none,
    selected_ion_mz := none, selected_ion_intensity := none,
    selected_ion_mobility := none, selected_ion_ccs := none,
    charge_state := none, collision_energy := none, frame := none,
    parent_frame := none, parent_scan := none, ms2_no_precursor := false }

/-- `get_centroid_status` from parse.py.  `exclude_mobility` enters as
`Option Bool` because the Python default is `None`; in `profile` mode the
function overwrites it with `True`, otherwise it is passed through. -/
def get_centroid_status (mode : Mode) (exclude_mobility : Option Bool) :
    Bool × Option Bool :=
  match mode with
  | Mode.profile => (false, some true)
  | Mode.centroid => (true, exclude_mobility)
  | Mode.raw => (true, exclude_mobility)

/-- Python truthiness of the `exclude_mobility` variable: `None` and
`False` are falsy, `True` is truthy (`if not exclude_mobility: ...`). -/
def emTruthy : Option Bool → Bool
  | none => false
  | some b => b

/-- Maximum of a list, modelling `np.max` / built-in `max` on a non-empty
array (callers guard non-emptiness; on `[]` we return the junk value 0
where Python would raise). -/
def npMax (l : List ℚ) : ℚ :=
  match l with
  | [] => 0
  | x :: xs => xs.foldl max x

/-- Minimum of a list, modelling built-in `min` on a non-empty array. -/
def npMin (l : List ℚ) : ℚ :=
  match l with
  | [] => 0
  | x :: xs => xs.foldl min x

/-- Index of the first occurrence of the maximum intensity, modelling
`np.where(intensity_array == np.max(intensity_array))[0][0]`. -/
def firstMaxIdx (l : List ℚ) : ℕ :=
  l.findIdx (fun x => decide (x = npMax l))

/-- `populate_scan_dict_w_spectrum_data` from parse.py: stores the arrays,
the total ion current (`sum`), the base peak (m/z and intensity at the
first index attaining the maximum intensity) and the lowest/highest
observed m/z. -/
def populate_scan_dict_w_spectrum_data (sd : ScanDict) (mz_array intensity_array : List ℚ) :
    ScanDict :=
  { sd with
    mz_array := some mz_array,
    intensity_array := some intensity_array,
    total_ion_current := some intensity_array.sum,
    base_peak_mz := some (mz_array.getD (firstMaxIdx intensity_array) 0),
    base_peak_intensity := some (intensity_array.getD (firstMaxIdx intensity_array) 0),
    high_mz := some (npMax mz_array),
    low_mz := some (npMin mz_array) }

/-- `populate_scan_dict_w_ms1` from parse.py. -/
def populate_scan_dict_w_ms1 (sd : ScanDict) (frame : ℤ) : ScanDict :=
  { sd with
    scan_type := some "MS1 spectrum",
    ms_level := some 1,
    frame := some frame }

/-- Row of the `Frames` table in analysis.tdf (the columns the modelled
code reads). -/
structure FrameRow where
  id : ℤ
  polarity : String
  time : ℚ
  msmsType : ℤ
  scanMode : ℤ
  numScans : ℕ
deriving DecidableEq, Repr

/-- Row of the `Precursors` table in analysis.tdf.  `monoisotopicMz` and
`charge` may be NaN/missing (`none`). -/
structure PrecursorRow where
  id : ℤ
  parent : ℤ
  averageMz : ℚ
  largestPeakMz : ℚ
  intensity : ℚ
  monoisotopicMz : Option ℚ
  charge : Option ℚ
  scanNumber : ℚ
deriving DecidableEq, Repr

/-- Row of the `PasefFrameMsMsInfo` table in analysis.tdf. -/
structure PasefRow where
  frame : ℤ
  scanNumBegin : ℕ
  scanNumEnd : ℕ
  isolationMz : ℚ
  isolationWidth : ℚ
  collisionEnergy : ℚ
  precursor : ℤ
deriving DecidableEq, Repr

/-- Row of the `DiaFrameMsMsInfo` table in analysis.tdf. -/
structure DiaInfoRow where
  frame : ℤ
  windowGroup : ℤ
deriving DecidableEq, Repr

/-- Row of the `DiaFrameMsMsWindows` table in analysis.tdf. -/
structure DiaWindowRow where
  windowGroup : ℤ
  scanNumBegin : ℕ
  scanNumEnd : ℕ
  isolationMz : ℚ
  isolationWidth : ℚ
  collisionEnergy : ℚ
deriving DecidableEq, Repr

/-- Row of the `FrameMsMsInfo` table in analysis.tdf (used by the bbCID
and MRM branches). -/
structure FrameMsMsInfoRow where
  frame : ℤ
  parent : ℤ
  triggerMass : ℚ
  isolationWidth : ℚ
  precursorCharge : Option ℚ
  collisionEnergy : ℚ
deriving DecidableEq, Repr

/-- Row of the `PrmFrameMsMsInfo` table in analysis.tdf. -/
structure PrmInfoRow where
  frame : ℤ
  target : ℤ
  scanNumBegin : ℕ
  scanNumEnd : ℕ
  isolationMz : ℚ
  isolationWidth : ℚ
  collisionEnergy : ℚ
deriving DecidableEq, Repr

/-- Row of the `PrmTargets` table in analysis.tdf. -/
structure PrmTargetRow where
  id : ℤ
  oneOverK0 : ℚ
  charge : Option ℚ
deriving DecidableEq, Repr

/-- TDF acquisition: the metadata tables plus the opaque vendor-SDK decode
functions consumed by the parser (spec section 6, "metadata/array
provider").  `readScans frame b e` models `tims_read_scans_v2` composed
per sub-scan with `tims_index_to_mz`, returning for every requested
sub-scan index the pair (m/z array, intensity array). -/
structure TdfData where
  frames : List FrameRow
  precursors : List PrecursorRow
  pasefFrameMsMsInfo : List PasefRow
  diaFrameMsMsInfo : List DiaInfoRow
  diaFrameMsMsWindows : List DiaWindowRow
  frameMsMsInfo : List FrameMsMsInfoRow
  prmFrameMsMsInfo : List PrmInfoRow
  prmTargets : List PrmTargetRow
  readScans : ℤ → ℕ → ℕ → List (List ℚ × List ℚ)
  scanNumToOneOverK0 : ℤ → ℤ → ℚ
  oneOverK0ToCcs : ℚ → ℤ → ℚ → ℚ
  extractProfile : ℤ → ℕ → ℕ → List ℚ × List ℚ
  extractCentroided : ℤ → ℕ → ℕ → List ℚ × List ℚ
  mzAcqRangeLower : ℚ
  mzAcqRangeUpper : ℚ

/-- Python `int()` applied to a rational: truncation toward zero. -/
def pyInt (q : ℚ) : ℤ := q.num / (q.den : ℤ)

/-- Modelled from the spec: `MSMS_TYPE_CATEGORY['ms1']` lives in
`timsconvert/constants.py`, which is not part of the provided sources.
Per spec section 4.1 the classifier keys on the `MsMsType` code, and
`get_spectra_count` (write.py) counts MS1 frames as those with
`MsMsType == 0`, so the ms1 category is the singleton code 0. -/
def MSMS_TYPE_CATEGORY_ms1 : List ℤ := [0]

/-- `np.linspace(lo, hi, num)`: `num` evenly spaced values from `lo` to
`hi` inclusive (exact in `ℚ`). -/
def np_linspace (lo hi : ℚ) (num : ℕ) : List ℚ :=
  if num = 0 then []
  else if num = 1 then [lo]
  else (List.range num).map (fun (i : ℕ) => lo + (hi - lo) * (i : ℚ) / ((num : ℚ) - 1))

/-- `np.digitize(x, bins)` (default `right=False`) for a non-decreasing
edge list: the number of edges `b` with `b ≤ x`, i.e. the index of the
bin whose left edge `x` falls at or above. -/
def np_digitize (x : ℚ) (bins : List ℚ) : ℕ :=
  bins.countP (fun b => decide (b ≤ x))

/-- Sum of the values whose digitized bin index equals `v`, modelling one
entry of `np.bincount(inverse_indices, weights=vals)`. -/
def groupWeightSum (vals : List ℚ) (dig : List ℕ) (v : ℕ) : ℚ :=
  (((vals.zip dig).filter (fun p => decide (p.2 = v))).map Prod.fst).sum

/-- `bin_profile_spectrum` from parse.py.  Builds `profile_bins` evenly
spaced edges spanning `[mz_array[0], mz_array[-1]]`, digitizes every
point, and produces one output point per occupied bin: m/z is
`bincount(inverse, weights=mz) / bincount(inverse)` — the plain
arithmetic mean of the member m/z values — and intensity is
`bincount(inverse, weights=intensity)`, the sum of the member
intensities.  The `np.place(bin_counts, bin_counts < 1, [1])` count floor
is the `max 1`.  The `encoding` parameter selects a float width in the
code and has no effect in the exact model. -/
def bin_profile_spectrum (mz_array intensity_array : List ℚ)
    (profile_bins : ℕ) (encoding : ℕ) : List ℚ × List ℚ :=
  let _ := encoding
  let mz_acq_range_lower := mz_array.headD 0
  let mz_acq_range_upper := mz_array.getLastD 0
  let bins := np_linspace mz_acq_range_lower mz_acq_range_upper profile_bins
  let dig := mz_array.map (fun x => np_digitize x bins)
  let unique_indices := (List.range (profile_bins + 1)).filter (fun v => dig.contains v)
  let bin_counts := unique_indices.map (fun v => max 1 (dig.countP (fun w => decide (w = v))))
  let mzOut := (unique_indices.zip bin_counts).map
    (fun p => groupWeightSum mz_array dig p.1 / (p.2 : ℚ))
  let itOut := unique_indices.map (fun v => groupWeightSum intensity_array dig v)
  (mzOut, itOut)

/-- Lexicographic order on (m/z, intensity) rows: the order in which
`np.unique(frames_array, axis=0)` returns the distinct rows of a 2-column
stack. -/
def lexLe2 (a b : ℚ × ℚ) : Prop :=
  a.1 < b.1 ∨ (a.1 = b.1 ∧ a.2 ≤ b.2)

instance : DecidableRel lexLe2 := fun a b => by
  unfold lexLe2; infer_instance

instance : IsTotal (ℚ × ℚ) lexLe2 where
  total a b := by
    rcases lt_trichotomy a.1 b.1 with h | h | h
    · exact Or.inl (Or.inl h)
    · rcases le_total a.2 b.2 with h2 | h2
      · exact Or.inl (Or.inr ⟨h, h2⟩)
      · exact Or.inr (Or.inr ⟨h.symm, h2⟩)
    · exact Or.inr (Or.inl h)

instance : IsTrans (ℚ × ℚ) lexLe2 where
  trans a b c hab hbc := by
    rcases hab with h1 | ⟨e1, h1⟩
    · rcases hbc with h2 | ⟨e2, _⟩
      · exact Or.inl (h1.trans h2)
      · exact Or.inl (e2 ▸ h1)
    · rcases hbc with h2 | ⟨e2, h2⟩
      · exact Or.inl (e1 ▸ h2)
      · exact Or.inr ⟨e1.trans e2, h1.trans h2⟩

/-- Lexicographic order on (m/z, intensity, mobility) rows: the order in
which `np.unique(frames_array, axis=0)` returns the distinct rows of a
3-column stack. -/
def lexLe3 (a b : ℚ × ℚ × ℚ) : Prop :=
  a.1 < b.1 ∨ (a.1 = b.1 ∧ lexLe2 a.2 b.2)

instance : DecidableRel lexLe3 := fun a b => by
  unfold lexLe3; infer_instance

instance : IsTotal (ℚ × ℚ × ℚ) lexLe3 where
  total a b := by
    rcases lt_trichotomy a.1 b.1 with h | h | h
    · exact Or.inl (Or.inl h)
    · rcases IsTotal.total (r := lexLe2) a.2 b.2 with h2 | h2
      · exact Or.inl (Or.inr ⟨h, h2⟩)
      · exact Or.inr (Or.inr ⟨h.symm, h2⟩)
    · exact Or.inr (Or.inl h)

instance : IsTrans (ℚ × ℚ × ℚ) lexLe3 where
  trans a b c hab hbc := by
    rcases hab with h1 | ⟨e1, h1⟩
    · rcases hbc with h2 | ⟨e2, _⟩
      · exact Or.inl (h1.trans h2)
      · exact Or.inl (e2 ▸ h1)
    · rcases hbc with h2 | ⟨e2, h2⟩
      · exact Or.inl (e1 ▸ h2)
      · exact Or.inr ⟨e1.trans e2, Trans.trans h1 h2⟩

/-- `np.unique(rows, axis=0)` for 2-column rows: the distinct rows in
lexicographic order.  (The `np.argsort` the code applies first does not
change this value.) -/
def npUniqueRows2 (rows : List (ℚ × ℚ)) : List (ℚ × ℚ) :=
  List.insertionSort lexLe2 rows.dedup

/-- `np.unique(rows, axis=0)` for 3-column rows: the distinct rows in
lexicographic order. -/
def npUniqueRows3 (rows : List (ℚ × ℚ × ℚ)) : List (ℚ × ℚ × ℚ) :=
  List.insertionSort lexLe3 rows.dedup

/-- Final merge step shared by the 3-D extractor: `None` when no point
survived, otherwise the three columns of `np.unique(rows, axis=0)`. -/
def mergeRows3 (rows : List (ℚ × ℚ × ℚ)) : Option (List ℚ × List ℚ × List ℚ) :=
  if rows.isEmpty then none
  else
    let sorted := npUniqueRows3 rows
    some (sorted.map (fun r => r.1), sorted.map (fun r => r.2.1),
          sorted.map (fun r => r.2.2))

/-- Per-sub-scan survival filter shared by the raw/3-D extractors: the
decoded m/z and intensity arrays are non-empty and of equal length. -/
def subscanOk (s : List ℚ × List ℚ) : Bool :=
  !s.1.isEmpty && !s.2.isEmpty && (s.1.length == s.2.length)

/-- `extract_2d_tdf_spectrum` from parse.py.  `raw` mode merges the
surviving sub-scans of `tims_read_scans_v2` and deduplicates the stacked
(m/z, intensity) rows with `np.unique(..., axis=0)`, returning
`(None, None)` (here `none`) when nothing survives; `profile` mode decodes
a quasi-profile trace and optionally re-bins it; `centroid` mode returns
the SDK's centroided spectrum.  (In `raw` mode the loop indexes
`list_of_scans[scan_num]` for `scan_num` in `[scan_begin, scan_end)`;
out-of-range positions, which in Python would raise IndexError, are
modelled by `getD` with an empty pair, which the survival filter then
discards — no modelled caller hits that case.) -/
def extract_2d_tdf_spectrum (tdf_data : TdfData) (mode : Mode) (frame : ℤ)
    (scan_begin scan_end : ℕ) (profile_bins : ℕ) (encoding : ℕ) :
    Option (List ℚ × List ℚ) :=
  match mode with
  | Mode.raw =>
    let list_of_scans := tdf_data.readScans frame scan_begin scan_end
    let surviving := ((List.range' scan_begin (scan_end - scan_begin)).map
      (fun scan_num => list_of_scans.getD scan_num ([], []))).filter subscanOk
    let rows := surviving.flatMap (fun s => s.1.zip s.2)
    if rows.isEmpty then none
    else
      let sorted := npUniqueRows2 rows
      some (sorted.map Prod.fst, sorted.map Prod.snd)
  | Mode.profile =>
    let decoded := tdf_data.extractProfile frame scan_begin scan_end
    if profile_bins ≠ 0 then
      some (bin_profile_spectrum decoded.1 decoded.2 profile_bins encoding)
    else
      some decoded
  | Mode.centroid =>
    some (tdf_data.extractCentroided frame scan_begin scan_end)

/-- `extract_3d_tdf_spectrum` from parse.py: decode every sub-scan in the
requested range, attach to each surviving sub-scan its 1/K0 mobility value
(one constant per sub-scan, via `tims_scannum_to_oneoverk0`), stack the
surviving (m/z, intensity, mobility) points and deduplicate rows with
`np.unique(..., axis=0)`; return `none` (Python `(None, None, None)`) when
no sub-scan survives.  The code re-bases a non-zero `scan_begin` to 0
before the loop, so sub-scans are indexed 0 .. (scan_end - scan_begin). -/
def extract_3d_tdf_spectrum (tdf_data : TdfData) (frame : ℤ)
    (scan_begin scan_end : ℕ) : Option (List ℚ × List ℚ × List ℚ) :=
  let list_of_scans := tdf_data.readScans frame scan_begin scan_end
  let localEnd := if scan_begin ≠ 0 then scan_end - scan_begin else scan_end
  let rows := (((List.range localEnd).map
      (fun scan_num => (list_of_scans.getD scan_num ([], []), scan_num))).filter
        (fun p => subscanOk p.1)).flatMap
      (fun p =>
        let mobility := tdf_data.scanNumToOneOverK0 frame (p.2 : ℤ)
        (p.1.1.zip p.1.2).map (fun q => (q.1, q.2, mobility)))
  mergeRows3 rows

/-- `np.arange(lo, hi, step)` for positive step: `lo, lo+step, ...` up to
but excluding `hi` (count = ceil((hi-lo)/step)). -/
def np_arange (lo hi step : ℚ) : List ℚ :=
  (List.range (((hi - lo) / step).ceil.toNat)).map (fun (i : ℕ) => lo + step * (i : ℚ))

/-- `extract_ddapasef_precursor_spectrum` from parse.py: extract each
PASEF isolation window with `extract_2d_tdf_spectrum`, keep the non-empty
equal-length results, deduplicate the stacked (m/z, intensity) rows, then
merge onto a fixed 0.005-wide bin grid spanning the acquisition m/z range
(arithmetic-mean m/z and summed intensity per occupied bin, with the same
`np.place` count floor).  Returns `none` when no window yields data.  In
the code a `None` result from the 2-D extractor (possible in `raw` mode)
hits `mz_array.size` and raises AttributeError, modelled as `.error`. -/
def extract_ddapasef_precursor_spectrum (tdf_data : TdfData)
    (pasefframemsmsinfo_dicts : List PasefRow) (mode : Mode)
    (profile_bins : ℕ) (encoding : ℕ) :
    Except String (Option (List ℚ × List ℚ)) := do
  let arrays ← pasefframemsmsinfo_dicts.foldlM
    (fun (acc : List (List ℚ × List ℚ)) pasef_dict => do
      match extract_2d_tdf_spectrum tdf_data mode pasef_dict.frame
          pasef_dict.scanNumBegin pasef_dict.scanNumEnd profile_bins encoding with
      | none => Except.error "AttributeError"
      | some (mz_array, intensity_array) =>
        if !mz_array.isEmpty && !intensity_array.isEmpty
            && (mz_array.length == intensity_array.length) then
          pure (acc ++ [(mz_array, intensity_array)])
        else
          pure acc)
    []
  if arrays.isEmpty then
    pure none
  else
    let pasef_array := npUniqueRows2 (arrays.flatMap (fun s => s.1.zip s.2))
    let bin_size : ℚ := 5 / 1000
    let bins := np_arange tdf_data.mzAcqRangeLower tdf_data.mzAcqRangeUpper bin_size
    let mzCol := pasef_array.map Prod.fst
    let itCol := pasef_array.map Prod.snd
    let dig := mzCol.map (fun x => np_digitize x bins)
    let unique_indices := (List.range (bins.length + 1)).filter (fun v => dig.contains v)
    let bin_counts := unique_indices.map
      (fun v => max 1 (dig.countP (fun w => decide (w = v))))
    let mz_array := (unique_indices.zip bin_counts).map
      (fun p => groupWeightSum mzCol dig p.1 / (p.2 : ℚ))
    let intensity_array := unique_indices.map (fun v => groupWeightSum itCol dig v)
    pure (some (mz_array, intensity_array))

/-- `populate_scan_dict_w_lcms_tsf_tdf_metadata` from parse.py. -/
def populate_scan_dict_w_lcms_tsf_tdf_metadata (sd : ScanDict)
    (frames_dict : FrameRow) (mode : Mode) (exclude_mobility : Option Bool) :
    ScanDict :=
  { sd with
    polarity := some frames_dict.polarity,
    centroided := some (get_centroid_status mode exclude_mobility).1,
    retention_time := some (frames_dict.time / 60) }

/-- `populate_scan_dict_w_bbcid_iscid_ms2` from parse.py, for the
TSF/TDF schemas (the BAF schema instead reads the `Variables` table of
the BAF metadata store, which no modelled caller uses). -/
def populate_scan_dict_w_bbcid_iscid_ms2 (sd : ScanDict) (frame : ℤ)
    (framemsmsinfo_dict : FrameMsMsInfoRow) : ScanDict :=
  { sd with
    scan_type := some "MSn spectrum",
    ms_level := some 2,
    collision_energy := some framemsmsinfo_dict.collisionEnergy,
    frame := some frame,
    ms2_no_precursor := true }

/-- `populate_scan_dict_w_ddapasef_ms2` from parse.py: precursor metadata
from the `Precursors` row and the first `PasefFrameMsMsInfo` row
(IndexError when that list is empty), 1/K0 mobility from the SDK, and a
CCS value only when the precursor charge is not NaN. -/
def populate_scan_dict_w_ddapasef_ms2 (sd : ScanDict) (tdf_data : TdfData)
    (precursor_dict : PrecursorRow) (pasefframemsmsinfo_dicts : List PasefRow) :
    Except String ScanDict :=
  match pasefframemsmsinfo_dicts with
  | [] => Except.error "IndexError"
  | pasef0 :: _ =>
    let mobility := tdf_data.scanNumToOneOverK0 precursor_dict.parent
      (pyInt precursor_dict.scanNumber)
    let base :=
      { sd with
        scan_type := some "MSn spectrum",
        ms_level := some 2,
        target_mz := some precursor_dict.averageMz,
        isolation_lower_offset := some (pasef0.isolationWidth / 2),
        isolation_upper_offset := some (pasef0.isolationWidth / 2),
        selected_ion_mz := some precursor_dict.largestPeakMz,
        selected_ion_intensity := some precursor_dict.intensity,
        selected_ion_mobility := some mobility,
        charge_state := precursor_dict.charge,
        collision_energy := some pasef0.collisionEnergy,
        parent_frame := some precursor_dict.parent,
        parent_scan := some (pyInt precursor_dict.scanNumber) }
    match precursor_dict.charge with
    | none => Except.ok base
    | some c =>
      Except.ok { base with
        selected_ion_ccs := some (tdf_data.oneOverK0ToCcs mobility (pyInt c)
          precursor_dict.largestPeakMz) }

/-- `populate_scan_dict_w_diapasef_ms2` from parse.py. -/
def populate_scan_dict_w_diapasef_ms2 (sd : ScanDict)
    (diaframemsmswindows_dict : DiaWindowRow) : ScanDict :=
  { sd with
    scan_type := some "MSn spectrum",
    ms_level := some 2,
    target_mz := some diaframemsmswindows_dict.isolationMz,
    isolation_lower_offset := some (diaframemsmswindows_dict.isolationWidth / 2),
    isolation_upper_offset := some (diaframemsmswindows_dict.isolationWidth / 2),
    selected_ion_mz := some diaframemsmswindows_dict.isolationMz,
    collision_energy := some diaframemsmswindows_dict.collisionEnergy }

/-- `populate_scan_dict_w_prmpasef_ms2` from parse.py: targeted-window
metadata from the `PrmFrameMsMsInfo` and `PrmTargets` rows, with a CCS
value only when the target charge is not NaN. -/
def populate_scan_dict_w_prmpasef_ms2 (tdf_data : TdfData) (sd : ScanDict)
    (prmframemsmsinfo_dict : PrmInfoRow) (prmtargets_dict : PrmTargetRow) :
    ScanDict :=
  let base :=
    { sd with
      scan_type := some "MSn spectrum",
      ms_level := some 2,
      target_mz := some prmframemsmsinfo_dict.isolationMz,
      isolation_lower_offset := some (prmframemsmsinfo_dict.isolationWidth / 2),
      isolation_upper_offset := some (prmframemsmsinfo_dict.isolationWidth / 2),
      selected_ion_mz := some prmframemsmsinfo_dict.isolationMz,
      selected_ion_mobility := some prmtargets_dict.oneOverK0,
      charge_state := prmtargets_dict.charge,
      collision_energy := some prmframemsmsinfo_dict.collisionEnergy }
  match prmtargets_dict.charge with
  | none => base
  | some c =>
    { base with
      selected_ion_ccs := some (tdf_data.oneOverK0ToCcs prmtargets_dict.oneOverK0
        (pyInt c) prmframemsmsinfo_dict.isolationMz) }

/-- `populate_scan_dict_w_tsf_ms2` from parse.py (also used for TDF MRM
frames): trigger-mass precursor metadata; `parent_frame` is filled only
for `lcms=True` callers. -/
def populate_scan_dict_w_tsf_ms2 (sd : ScanDict)
    (framemsmsinfo_dict : FrameMsMsInfoRow) (lcms : Bool) : ScanDict :=
  let base :=
    { sd with
      scan_type := some "MSn spectrum",
      ms_level := some 2,
      target_mz := some framemsmsinfo_dict.triggerMass,
      isolation_lower_offset := some (framemsmsinfo_dict.isolationWidth / 2),
      isolation_upper_offset := some (framemsmsinfo_dict.isolationWidth / 2),
      selected_ion_mz := some framemsmsinfo_dict.triggerMass,
      charge_state := framemsmsinfo_dict.precursorCharge,
      collision_energy := some framemsmsinfo_dict.collisionEnergy }
  if lcms then { base with parent_frame := some framemsmsinfo_dict.parent }
  else base

/-- Pandas `.to_dict(orient='records')[0]` on a filtered table: the first
matching row, raising IndexError when there is none. -/
def tableHead {α : Type} (l : List α) : Except String α :=
  match l with
  | [] => Except.error "IndexError"
  | x :: _ => Except.ok x

/-- Guard pattern `if mz_array.size != 0 and intensity_array.size != 0 and
mz_array.size == intensity_array.size and mz_array is not None and ...`
from parse_lcms_tdf: evaluating `.size` on a `None` array raises
AttributeError *before* the `is not None` checks are reached. -/
def arrayPairOk (mz_array intensity_array : List ℚ) : Bool :=
  !mz_array.isEmpty && !intensity_array.isEmpty
    && (mz_array.length == intensity_array.length)

/-- MS1 branch of `parse_lcms_tdf` (parse.py lines 834-859): populate
metadata, extract mobility-resolved (3-D) or merged (2-D) arrays
depending on the effective `exclude_mobility`, and keep the record only
when both arrays are non-empty and of equal length.  A `None` extraction
result hits `mz_array.size` → AttributeError. -/
def parse_tdf_ms1_frame (tdf_data : TdfData) (frames_dict : FrameRow)
    (frame : ℤ) (mode : Mode) (exclude_mobility : Option Bool)
    (profile_bins : ℕ) (encoding : ℕ) : Except String (List ScanDict) := do
  let sd := populate_scan_dict_w_ms1
    (populate_scan_dict_w_lcms_tsf_tdf_metadata init_scan_dict frames_dict mode
      exclude_mobility) frame
  if emTruthy exclude_mobility = false then
    match extract_3d_tdf_spectrum tdf_data frame 0 frames_dict.numScans with
    | none => Except.error "AttributeError"
    | some (mz_array, intensity_array, mobility_array) =>
      if arrayPairOk mz_array intensity_array then
        let sd2 := populate_scan_dict_w_spectrum_data sd mz_array intensity_array
        let sd3 :=
          if emTruthy exclude_mobility = false && !mobility_array.isEmpty then
            { sd2 with mobility_array := some mobility_array }
          else sd2
        pure [sd3]
      else pure []
  else
    match extract_2d_tdf_spectrum tdf_data mode frame 0 frames_dict.numScans
        profile_bins encoding with
    | none => Except.error "AttributeError"
    | some (mz_array, intensity_array) =>
      if arrayPairOk mz_array intensity_array then
        pure [populate_scan_dict_w_spectrum_data sd mz_array intensity_array]
      else pure []

/-- ddaPASEF product sub-loop of `parse_lcms_tdf` (parse.py lines
863-886): one product record per `Precursors` row whose `Parent` is this
frame, extracted via `extract_ddapasef_precursor_spectrum` and kept only
when that returns data. -/
def dda_product_step (tdf_data : TdfData) (frames_dict : FrameRow)
    (mode : Mode) (exclude_mobility : Option Bool) (profile_bins encoding : ℕ)
    (acc : List ScanDict) (precursor_dict : PrecursorRow) :
    Except String (List ScanDict) := do
  let sd := populate_scan_dict_w_lcms_tsf_tdf_metadata init_scan_dict
    frames_dict mode exclude_mobility
  let pasefframemsmsinfo_dicts := tdf_data.pasefFrameMsMsInfo.filter
    (fun r => decide (r.precursor = precursor_dict.id))
  let res ← extract_ddapasef_precursor_spectrum tdf_data
    pasefframemsmsinfo_dicts mode profile_bins encoding
  match res with
  | none => pure acc
  | some (mz_array, intensity_array) => do
    let sd2 ← populate_scan_dict_w_ddapasef_ms2 sd tdf_data precursor_dict
      pasefframemsmsinfo_dicts
    pure (acc ++ [populate_scan_dict_w_spectrum_data sd2 mz_array intensity_array])

def parse_tdf_dda_products (tdf_data : TdfData) (frames_dict : FrameRow)
    (frame : ℤ) (mode : Mode) (exclude_mobility : Option Bool)
    (profile_bins : ℕ) (encoding : ℕ) : Except String (List ScanDict) := do
  let precursor_dicts := tdf_data.precursors.filter (fun p => decide (p.parent = frame))
  precursor_dicts.foldlM
    (dda_product_step tdf_data frames_dict mode exclude_mobility profile_bins
      encoding)
    []

/-- Body of the per-window loop of the diaPASEF branch (parse.py lines
894-923). -/
def dia_window_step (tdf_data : TdfData) (frames_dict : FrameRow) (frame : ℤ)
    (mode : Mode) (exclude_mobility : Option Bool) (profile_bins encoding : ℕ)
    (acc : List ScanDict) (w : DiaWindowRow) : Except String (List ScanDict) := do
  let sd := populate_scan_dict_w_lcms_tsf_tdf_metadata init_scan_dict
    frames_dict mode exclude_mobility
  if emTruthy exclude_mobility = false then
    match extract_3d_tdf_spectrum tdf_data frame w.scanNumBegin w.scanNumEnd with
    | none => Except.error "AttributeError"
    | some (mz_array, intensity_array, mobility_array) =>
      if arrayPairOk mz_array intensity_array then
        let sd2 := populate_scan_dict_w_spectrum_data
          (populate_scan_dict_w_diapasef_ms2 sd w) mz_array intensity_array
        let sd3 :=
          if emTruthy exclude_mobility = false && !mobility_array.isEmpty then
            { sd2 with mobility_array := some mobility_array }
          else sd2
        pure (acc ++ [sd3])
      else pure acc
  else
    match extract_2d_tdf_spectrum tdf_data mode frame w.scanNumBegin
        w.scanNumEnd profile_bins encoding with
    | none => Except.error "AttributeError"
    | some (mz_array, intensity_array) =>
      if arrayPairOk mz_array intensity_array then
        pure (acc ++ [populate_scan_dict_w_spectrum_data
          (populate_scan_dict_w_diapasef_ms2 sd w) mz_array intensity_array])
      else pure acc

/-- diaPASEF branch of `parse_lcms_tdf` (parse.py lines 887-923): one
record per isolation window of the frame's window group; each window is
extracted like an MS1 frame over its sub-scan range and populated with
the window's precursor metadata. -/
def parse_tdf_dia_frame (tdf_data : TdfData) (frames_dict : FrameRow)
    (frame : ℤ) (mode : Mode) (exclude_mobility : Option Bool)
    (profile_bins : ℕ) (encoding : ℕ) : Except String (List ScanDict) := do
  let diaframemsmsinfo_dict ← tableHead (tdf_data.diaFrameMsMsInfo.filter
    (fun r => decide (r.frame = frame)))
  let diaframemsmswindows_dicts := tdf_data.diaFrameMsMsWindows.filter
    (fun w => decide (w.windowGroup = diaframemsmsinfo_dict.windowGroup))
  diaframemsmswindows_dicts.foldlM
    (dia_window_step tdf_data frames_dict frame mode exclude_mobility
      profile_bins encoding)
    []

/-- bbCID branch of `parse_lcms_tdf` (parse.py lines 924-955). -/
def parse_tdf_bbcid_frame (tdf_data : TdfData) (frames_dict : FrameRow)
    (frame : ℤ) (mode : Mode) (exclude_mobility : Option Bool)
    (profile_bins : ℕ) (encoding : ℕ) : Except String (List ScanDict) := do
  let framemsmsinfo_dict ← tableHead (tdf_data.frameMsMsInfo.filter
    (fun r => decide (r.frame = frame)))
  let sd := populate_scan_dict_w_bbcid_iscid_ms2
    (populate_scan_dict_w_lcms_tsf_tdf_metadata init_scan_dict frames_dict mode
      exclude_mobility) frame framemsmsinfo_dict
  if emTruthy exclude_mobility = false then
    match extract_3d_tdf_spectrum tdf_data frame 0 frames_dict.numScans with
    | none => Except.error "AttributeError"
    | some (mz_array, intensity_array, mobility_array) =>
      if arrayPairOk mz_array intensity_array then
        let sd2 := populate_scan_dict_w_spectrum_data sd mz_array intensity_array
        let sd3 :=
          if emTruthy exclude_mobility = false && !mobility_array.isEmpty then
            { sd2 with mobility_array := some mobility_array }
          else sd2
        pure [sd3]
      else pure []
  else
    match extract_2d_tdf_spectrum tdf_data mode frame 0 frames_dict.numScans
        profile_bins encoding with
    | none => Except.error "AttributeError"
    | some (mz_array, intensity_array) =>
      if arrayPairOk mz_array intensity_array then
        pure [populate_scan_dict_w_spectrum_data sd mz_array intensity_array]
      else pure []

/-- MRM branch of `parse_lcms_tdf` (parse.py lines 956-977): always a
2-D extraction over the whole frame; `lcms=False` so no parent frame is
recorded. -/
def parse_tdf_mrm_frame (tdf_data : TdfData) (frames_dict : FrameRow)
    (frame : ℤ) (mode : Mode) (exclude_mobility : Option Bool)
    (profile_bins : ℕ) (encoding : ℕ) : Except String (List ScanDict) := do
  let framemsmsinfo_dict ← tableHead (tdf_data.frameMsMsInfo.filter
    (fun r => decide (r.frame = frame)))
  let sd := populate_scan_dict_w_lcms_tsf_tdf_metadata init_scan_dict frames_dict
    mode exclude_mobility
  match extract_2d_tdf_spectrum tdf_data mode frame 0 frames_dict.numScans
      profile_bins encoding with
  | none => Except.error "AttributeError"
  | some (mz_array, intensity_array) =>
    if arrayPairOk mz_array intensity_array then
      pure [populate_scan_dict_w_spectrum_data
        (populate_scan_dict_w_tsf_ms2 sd framemsmsinfo_dict false)
        mz_array intensity_array]
    else pure []

/-- prm-PASEF branch of `parse_lcms_tdf` (parse.py lines 978-1003). -/
def parse_tdf_prm_frame (tdf_data : TdfData) (frames_dict : FrameRow)
    (frame : ℤ) (mode : Mode) (exclude_mobility : Option Bool)
    (profile_bins : ℕ) (encoding : ℕ) : Except String (List ScanDict) := do
  let prmframemsmsinfo_dict ← tableHead (tdf_data.prmFrameMsMsInfo.filter
    (fun r => decide (r.frame = frame)))
  let prmtargets_dict ← tableHead (tdf_data.prmTargets.filter
    (fun t => decide (t.id = prmframemsmsinfo_dict.target)))
  let sd := populate_scan_dict_w_lcms_tsf_tdf_metadata init_scan_dict frames_dict
    mode exclude_mobility
  match extract_2d_tdf_spectrum tdf_data mode frame
      prmframemsmsinfo_dict.scanNumBegin prmframemsmsinfo_dict.scanNumEnd
      profile_bins encoding with
  | none => Except.error "AttributeError"
  | some (mz_array, intensity_array) =>
    if arrayPairOk mz_array intensity_array then
      pure [populate_scan_dict_w_spectrum_data
        (populate_scan_dict_w_prmpasef_ms2 tdf_data sd prmframemsmsinfo_dict
          prmtargets_dict) mz_array intensity_array]
    else pure []

/-- One iteration of the frame loop of `parse_lcms_tdf`: the if/elif
dispatch on `(MsMsType, ScanMode)` (parse.py lines 829-1003).  Returns
this frame's contributions to (parent scans, product scans).  A frame
matching no branch is skipped. -/
def parse_tdf_frame (tdf_data : TdfData) (frame_start frame_stop : ℤ)
    (mode : Mode) (ms2_only : Bool) (exclude_mobility : Option Bool)
    (profile_bins : ℕ) (encoding : ℕ) (frame : ℤ) :
    Except String (List ScanDict × List ScanDict) := do
  let frames_dict ← tableHead (tdf_data.frames.filter (fun r => decide (r.id = frame)))
  if MSMS_TYPE_CATEGORY_ms1.contains frames_dict.msmsType && !ms2_only then do
    let parents ← parse_tdf_ms1_frame tdf_data frames_dict frame mode
      exclude_mobility profile_bins encoding
    let products ←
      if frame_stop - frame_start > 1 then
        if frames_dict.scanMode = 8 ∧ frames_dict.msmsType = 0 then
          parse_tdf_dda_products tdf_data frames_dict frame mode exclude_mobility
            profile_bins encoding
        else pure []
      else pure []
    pure (parents, products)
  else if frames_dict.scanMode = 9 ∧ frames_dict.msmsType = 9 then do
    let parents ← parse_tdf_dia_frame tdf_data frames_dict frame mode
      exclude_mobility profile_bins encoding
    pure (parents, [])
  else if frames_dict.scanMode = 4 ∧ frames_dict.msmsType = 2 then do
    let parents ← parse_tdf_bbcid_frame tdf_data frames_dict frame mode
      exclude_mobility profile_bins encoding
    pure (parents, [])
  else if frames_dict.scanMode = 2 ∧ frames_dict.msmsType = 2 then do
    let parents ← parse_tdf_mrm_frame tdf_data frames_dict frame mode
      exclude_mobility profile_bins encoding
    pure (parents, [])
  else if frames_dict.scanMode = 10 ∧ frames_dict.msmsType = 10 then do
    let parents ← parse_tdf_prm_frame tdf_data frames_dict frame mode
      exclude_mobility profile_bins encoding
    pure (parents, [])
  else
    pure ([], [])

/-- Python `range(frame_start, frame_stop)` over integers. -/
def intRange (a b : ℤ) : List ℤ :=
  (List.range (b - a).toNat).map (fun (i : ℕ) => a + (i : ℤ))

/-- Frame loop of `parse_lcms_tdf`, accumulating parent and product scans
in frame order. -/
def parse_lcms_tdf_frames (tdf_data : TdfData) (frame_start frame_stop : ℤ)
    (mode : Mode) (ms2_only : Bool) (exclude_mobility : Option Bool)
    (profile_bins : ℕ) (encoding : ℕ) :
    List ℤ → Except String (List ScanDict × List ScanDict)
  | [] => Except.ok ([], [])
  | f :: rest => do
    let (ps, qs) ← parse_tdf_frame tdf_data frame_start frame_stop mode ms2_only
      exclude_mobility profile_bins encoding f
    let (ps2, qs2) ← parse_lcms_tdf_frames tdf_data frame_start frame_stop mode
      ms2_only exclude_mobility profile_bins encoding rest
    pure (ps ++ ps2, qs ++ qs2)

/-- `parse_lcms_tdf` from parse.py: recompute the effective
`exclude_mobility` via `get_centroid_status` (forced to `True` in profile
mode), then process every frame in `[frame_start, frame_stop)`. -/
def parse_lcms_tdf (tdf_data : TdfData) (frame_start frame_stop : ℤ)
    (mode : Mode) (ms2_only : Bool) (exclude_mobility : Option Bool)
    (profile_bins : ℕ) (encoding : ℕ) :
    Except String (List ScanDict × List ScanDict) :=
  parse_lcms_tdf_frames tdf_data frame_start frame_stop mode ms2_only
    (get_centroid_status mode exclude_mobility).2 profile_bins encoding
    (intRange frame_start frame_stop)

/-- One spectrum handed to the psims sink: the scan number used in its
`id='scan=N'`, the scan dictionary at write time (with `scan_number`
filled in), and the `spectrum_reference` precursor back-reference (the
parent's scan number; `none` when `write_lcms_ms2_spectrum` is called
with `parent_scan=None`, or for an MS1-writer spectrum). -/
structure EmittedSpectrum where
  scanNumber : ℕ
  record : ScanDict
  spectrumReference : Option ℕ
deriving DecidableEq, Repr

/-- Product loop of `write_lcms_chunk_to_mzml`: emit each product scan
with the next scan number; `parentRef` is the enclosing parent's scan
number (`none` in the ms2_only branch, where the writer is called with
`parent_scan=None` and therefore sets no `spectrum_reference`). -/
def emitProducts (product_scans : List ScanDict) (parentRef : Option ℕ)
    (scan_count : ℕ) : ℕ × List EmittedSpectrum :=
  match product_scans with
  | [] => (scan_count, [])
  | q :: rest =>
    let recRes := emitProducts rest parentRef (scan_count + 1)
    (recRes.1,
      ⟨scan_count + 1, { q with scan_number := some (scan_count + 1) }, parentRef⟩
        :: recRes.2)

/-- Parent loop of `write_lcms_chunk_to_mzml` (write.py lines 215-226):
for each parent scan, emit the parent, then every product scan whose
`parent_frame` equals the parent's `frame`, consecutively numbered, each
product carrying a `spectrum_reference` to the parent's scan number. -/
def emitParents (parent_scans product_scans : List ScanDict)
    (scan_count : ℕ) : ℕ × List EmittedSpectrum :=
  match parent_scans with
  | [] => (scan_count, [])
  | parent :: rest =>
    let products := product_scans.filter
      (fun i => decide (i.parent_frame = parent.frame))
    let prodRes := emitProducts products (some (scan_count + 1)) (scan_count + 1)
    let restRes := emitParents rest product_scans prodRes.1
    (restRes.1,
      ⟨scan_count + 1, { parent with scan_number := some (scan_count + 1) }, none⟩
        :: (prodRes.2 ++ restRes.2))

/-- Emission logic of `write_lcms_chunk_to_mzml` (write.py lines
214-232), after parsing: `if not ms2_only:` → parent/product loop;
`elif ms2_only or parent_scans == []:` → standalone product loop.  The
`elif` is reached only when `ms2_only` is true (when `ms2_only` is false
the `if` branch is taken even for an empty parent list), so the
`parent_scans == []` disjunct is dead code. -/
def writeChunkSpectra (parent_scans product_scans : List ScanDict)
    (ms2_only : Bool) (scan_count : ℕ) : ℕ × List EmittedSpectrum :=
  if !ms2_only then
    emitParents parent_scans product_scans scan_count
  else
    emitProducts product_scans none scan_count

/-- `write_lcms_chunk_to_mzml` from write.py for the TDF schema: parse
the frame window, then emit the resulting scans, returning the updated
running `scan_count` together with what was written. -/
def write_lcms_chunk_to_mzml (tdf_data : TdfData) (frame_start frame_stop : ℤ)
    (scan_count : ℕ) (mode : Mode) (ms2_only : Bool)
    (exclude_mobility : Option Bool) (profile_bins : ℕ) (encoding : ℕ) :
    Except String (ℕ × List EmittedSpectrum) := do
  let (parent_scans, product_scans) ← parse_lcms_tdf tdf_data frame_start
    frame_stop mode ms2_only exclude_mobility profile_bins encoding
  pure (writeChunkSpectra parent_scans product_scans ms2_only scan_count)

/-- Python truthiness of a pandas `MonoisotopicMz` cell as seen by
`filter(None, ...)`: `None` (missing) and `0` are falsy. -/
def monoMzTruthy : Option ℚ → Bool
  | none => false
  | some q => decide (q ≠ 0)

/-- `get_spectra_count` from write.py for the TDF schema: frames with
`MsMsType == 0` plus `Precursors` rows with a truthy `MonoisotopicMz`.
(The Baf2Sql branch counts `AcquisitionKey` 1 and 2 rows instead and is
not needed by the modelled TDF pipeline.) -/
def get_spectra_count (tdf_data : TdfData) : ℕ :=
  (tdf_data.frames.filter (fun f => decide (f.msmsType = 0))).length
    + (tdf_data.precursors.filter (fun p => monoMzTruthy p.monoisotopicMz)).length

/-- Modelled from the spec: `data.ms1_frames` is defined in
`timsconvert/classes.py`, which is not part of the provided sources.  Per
spec section 4.6 the chunk boundaries are MS1-to-MS1 frame boundaries, and
per section 4.1 / `get_spectra_count` MS1 frames are those with
`MsMsType == 0`, so `ms1_frames` is the ordered list of ids of frames
with `MsMsType == 0`. -/
def ms1_frames (tdf_data : TdfData) : List ℤ :=
  (tdf_data.frames.filter (fun f => decide (f.msmsType = 0))).map (fun f => f.id)

/-- Pairs `zip(l, l.drop 1)` of consecutive elements, modelling the
`for i, j in zip(frames[a:b], frames[a+1:b+1])` window construction. -/
def consecPairs : List ℤ → List (ℤ × ℤ)
  | a :: b :: rest => (a, b) :: consecPairs (b :: rest)
  | _ => []

/-- The `while chunk + chunk_size + 1 <= len(ms1_frames)` loop of
`write_lcms_mzml` (write.py lines 261-279): each full chunk contributes
the consecutive pairs of the slice `ms1_frames[chunk : chunk+chunk_size+1]`
and advances `chunk` by `chunk_size`.  The loop variable `j` (the second
element of the last pair formed) leaks out of the `for` in Python and is
threaded through explicitly.  Returns (windows, final chunk offset, last
bound `j`).  The fuel argument bounds the iterations; with
`chunk_size ≥ 1` the fuel `ms1.length + 1` is never exhausted (for
`chunk_size = 0` the Python loop would not terminate, modelled as an
error). -/
def buildFullChunks (ms1 : List ℤ) (chunk_size : ℕ) :
    ℕ → ℕ → Option ℤ → Except String (List (ℤ × ℤ) × ℕ × Option ℤ)
  | 0, _, _ => Except.error "NonTermination"
  | fuel + 1, chunk, j =>
    if chunk + chunk_size + 1 ≤ ms1.length then
      let chunk_list := consecPairs ((ms1.drop chunk).take (chunk_size + 1))
      let j2 := match chunk_list.getLast? with
        | some p => some p.2
        | none => j
      match buildFullChunks ms1 chunk_size fuel (chunk + chunk_size) j2 with
      | Except.error e => Except.error e
      | Except.ok (rest, c, j3) => Except.ok (chunk_list ++ rest, c, j3)
    else
      Except.ok ([], chunk, j)

/-- Full frame-window list of `write_lcms_mzml`: the full chunks from the
`while` loop, then the trailing `else:` block pairs
`zip(ms1_frames[chunk:-1], ms1_frames[chunk+1:])` plus the final window
`(j, data.frames.shape[0] + 1)`.  When `j` was never bound (no full chunk
ran and the trailing zip is empty, e.g. a single MS1 frame) Python raises
NameError. -/
def build_chunk_list (ms1 : List ℤ) (num_frame_rows : ℕ) (chunk_size : ℕ) :
    Except String (List (ℤ × ℤ)) := do
  let (full, chunk, j0) ← buildFullChunks ms1 chunk_size (ms1.length + 1) 0 none
  let trailing := consecPairs (ms1.drop chunk)
  let j1 := match trailing.getLast? with
    | some p => some p.2
    | none => j0
  match j1 with
  | none => Except.error "NameError"
  | some j => Except.ok (full ++ (trailing ++ [(j, (num_frame_rows : ℤ) + 1)]))

/-- Window loop of `write_lcms_mzml`: each frame window is parsed and
written in order, threading the running `scan_count` and concatenating
the emitted spectra. -/
def runWindows (tdf_data : TdfData) (mode : Mode) (ms2_only : Bool)
    (exclude_mobility : Option Bool) (profile_bins : ℕ) (encoding : ℕ) :
    List (ℤ × ℤ) → ℕ → Except String (ℕ × List EmittedSpectrum)
  | [], scan_count => Except.ok (scan_count, [])
  | w :: ws, scan_count => do
    let (sc2, out) ← write_lcms_chunk_to_mzml tdf_data w.1 w.2 scan_count mode
      ms2_only exclude_mobility profile_bins encoding
    let (sc3, rest) ← runWindows tdf_data mode ms2_only exclude_mobility
      profile_bins encoding ws sc2
    pure (sc3, out ++ rest)

/-- `write_lcms_mzml` from write.py for the TDF schema: pre-declare
`get_spectra_count` to the sink's spectrum list, stream every frame
window with running scan numbering starting at 0, and finalize: when the
declared count differs from the final `scan_count`, `update_spectra_count`
rewrites the declared count in the output to `scan_count` (modelled at
the count level).  Returns (declared count in the finalized output, final
scan_count, emitted spectra in write order). -/
def write_lcms_mzml (tdf_data : TdfData) (mode : Mode) (ms2_only : Bool)
    (exclude_mobility : Option Bool) (profile_bins : ℕ) (encoding : ℕ)
    (chunk_size : ℕ) : Except String (ℕ × ℕ × List EmittedSpectrum) := do
  let num_of_spectra := get_spectra_count tdf_data
  let windows ← build_chunk_list (ms1_frames tdf_data) tdf_data.frames.length
    chunk_size
  let (scan_count, emitted) ← runWindows tdf_data mode ms2_only exclude_mobility
    profile_bins encoding windows 0
  let declared_final := if num_of_spectra ≠ scan_count then scan_count
    else num_of_spectra
  pure (declared_final, scan_count, emitted)

/-- A TDF acquisition with empty tables and trivial SDK decode functions,
used as the base for the concrete test acquisitions below. -/
def trivialTdf : TdfData :=
  { frames := [], precursors := [], pasefFrameMsMsInfo := [],
    diaFrameMsMsInfo := [], diaFrameMsMsWindows := [], frameMsMsInfo := [],
    prmFrameMsMsInfo := [], prmTargets := [],
    readScans := fun _ _ _ => [],
    scanNumToOneOverK0 := fun _ _ => 0,
    oneOverK0ToCcs := fun _ _ _ => 0,
    extractProfile := fun _ _ _ => ([], []),
    extractCentroided := fun _ _ _ => ([], []),
    mzAcqRangeLower := 0, mzAcqRangeUpper := 0 }

/-- A plain MS1 `Frames` row (`MsMsType` 0, `ScanMode` 0). -/
def mkMs1Frame (i : ℤ) : FrameRow :=
  { id := i, polarity := "+", time := 60, msmsType := 0, scanMode := 0,
    numScans := 2 }

/-- Concrete MS1-only acquisition: three MS1 frames, of which frame 2
decodes to empty arrays (and is therefore dropped) while frames 1 and 3
decode to the one-point spectrum (m/z 100, intensity 5). -/
def dMs1Run : TdfData :=
  { trivialTdf with
    frames := [mkMs1Frame 1, mkMs1Frame 2, mkMs1Frame 3]
    extractCentroided := fun frame _ _ =>
      if frame = 2 then ([], []) else ([100], [5]) }

/-- The scan record `dMs1Run` produces for MS1 frame `i` in centroid mode
with mobility excluded. -/
def dMs1Rec (i : ℤ) : ScanDict :=
  populate_scan_dict_w_spectrum_data
    (populate_scan_dict_w_ms1
      (populate_scan_dict_w_lcms_tsf_tdf_metadata init_scan_dict (mkMs1Frame i)
        Mode.centroid (some true)) i)
    [100] [5]

/-- Result of running the serializer on `dMs1Run` (centroid mode,
mobility excluded, chunk size 1): frame 2 is dropped, frames 1 and 3 get
the gap-free scan numbers 1 and 2, and the declared count 3 is corrected
to the 2 actually emitted spectra. -/
def dMs1RunResult : ℕ × ℕ × List EmittedSpectrum :=
  (2, 2,
    [⟨1, { dMs1Rec 1 with scan_number := some 1 }, none⟩,
     ⟨2, { dMs1Rec 3 with scan_number := some 2 }, none⟩])

/-- An MS1 `Frames` row of a diaPASEF acquisition (`ScanMode` 9,
`MsMsType` 0). -/
def diaMs1Frame (i : ℤ) : FrameRow :=
  { id := i, polarity := "+", time := 60, msmsType := 0, scanMode := 9,
    numScans := 4 }

/-- The diaPASEF MS2 `Frames` row of `dDiaRun` (`ScanMode` 9,
`MsMsType` 9). -/
def diaMs2Frame : FrameRow :=
  { id := 2, polarity := "+", time := 61, msmsType := 9, scanMode := 9,
    numScans := 4 }

/-- The two isolation windows of `dDiaRun`'s window group 1. -/
def diaWindow1 : DiaWindowRow :=
  { windowGroup := 1, scanNumBegin := 0, scanNumEnd := 2, isolationMz := 400,
    isolationWidth := 25, collisionEnergy := 30 }

/-- Second isolation window of `dDiaRun`'s window group 1. -/
def diaWindow2 : DiaWindowRow :=
  { windowGroup := 1, scanNumBegin := 2, scanNumEnd := 4, isolationMz := 425,
    isolationWidth := 25, collisionEnergy := 30 }

/-- Concrete diaPASEF acquisition: MS1 frames 1 and 3 around dia frame 2
whose window group has two isolation windows.  `get_spectra_count` counts
only the two `MsMsType == 0` frames, but the run emits four spectra (the
two MS1 records plus one record per isolation window). -/
def dDiaRun : TdfData :=
  { trivialTdf with
    frames := [diaMs1Frame 1, diaMs2Frame, diaMs1Frame 3]
    diaFrameMsMsInfo := [{ frame := 2, windowGroup := 1 }]
    diaFrameMsMsWindows := [diaWindow1, diaWindow2]
    extractCentroided := fun _ _ _ => ([100], [5]) }

/-- The MS1 record `dDiaRun` produces for frame `i`. -/
def dDiaMs1Rec (i : ℤ) : ScanDict :=
  populate_scan_dict_w_spectrum_data
    (populate_scan_dict_w_ms1
      (populate_scan_dict_w_lcms_tsf_tdf_metadata init_scan_dict (diaMs1Frame i)
        Mode.centroid (some true)) i)
    [100] [5]

/-- The record `dDiaRun` produces for an isolation window of frame 2. -/
def dDiaWindowRec (w : DiaWindowRow) : ScanDict :=
  populate_scan_dict_w_spectrum_data
    (populate_scan_dict_w_diapasef_ms2
      (populate_scan_dict_w_lcms_tsf_tdf_metadata init_scan_dict diaMs2Frame
        Mode.centroid (some true)) w)
    [100] [5]

/-- Result of running the serializer on `dDiaRun` (centroid mode,
mobility excluded, chunk size 1): the declared count was corrected to
the four actually emitted spectra. -/
def dDiaRunResult : ℕ × ℕ × List EmittedSpectrum :=
  (4, 4,
    [⟨1, { dDiaMs1Rec 1 with scan_number := some 1 }, none⟩,
     ⟨2, { dDiaWindowRec diaWindow1 with scan_number := some 2 }, none⟩,
     ⟨3, { dDiaWindowRec diaWindow2 with scan_number := some 3 }, none⟩,
     ⟨4, { dDiaMs1Rec 3 with scan_number := some 4 }, none⟩])

/-- Two sub-scans that decode to the same m/z 100 with different
intensities 5 and 7: after the row-wise `np.unique` merge both rows
survive and the merged m/z column is `[100, 100]`. -/
def dDupMzScans : TdfData :=
  { trivialTdf with readScans := fun _ _ _ => [([100], [5]), ([100], [7])] }

/-- Two sub-scans (mobility 0 and 1) with three points overall, m/z
100, 200 on sub-scan 0 and 150 on sub-scan 1. -/
def dThreePointScans : TdfData :=
  { trivialTdf with
    readScans := fun _ _ _ => [([100, 200], [5, 5]), ([150], [7])]
    scanNumToOneOverK0 := fun _ s => (s : ℚ) }

/-- An MS1 frame all of whose sub-scans decode to empty arrays, so the
3-D extractor signals "empty" (`None`). -/
def dEmptyFrameRun : TdfData :=
  { trivialTdf with
    frames := [mkMs1Frame 1]
    readScans := fun _ _ _ => [([], []), ([], [])] }

/-- Concrete MS1-only acquisition decoded in profile mode: the profile
trace of every frame is the one-point spectrum (m/z 100, intensity 5). -/
def dProfileRun : TdfData :=
  { trivialTdf with
    frames := [mkMs1Frame 1, mkMs1Frame 2, mkMs1Frame 3]
    extractProfile := fun _ _ _ => ([100], [5]) }

/-- The record `dProfileRun` produces for MS1 frame `i` in profile mode
(the caller-supplied `exclude_mobility = False` notwithstanding). -/
def dProfileRec (i : ℤ) : ScanDict :=
  populate_scan_dict_w_spectrum_data
    (populate_scan_dict_w_ms1
      (populate_scan_dict_w_lcms_tsf_tdf_metadata init_scan_dict (mkMs1Frame i)
        Mode.profile (some true)) i)
    [100] [5]

/-- A `Precursors` row with NaN charge and NaN monoisotopic m/z. -/
def nanChargePrecursor : PrecursorRow :=
  { id := 11, parent := 10, averageMz := 500, largestPeakMz := 501,
    intensity := 1000, monoisotopicMz := none, charge := none,
    scanNumber := 42 }

/-- A `PasefFrameMsMsInfo` row for `nanChargePrecursor`. -/
def nanChargePasefRow : PasefRow :=
  { frame := 12, scanNumBegin := 0, scanNumEnd := 2, isolationMz := 500,
    isolationWidth := 2, collisionEnergy := 35, precursor := 11 }

/-- A `PrmFrameMsMsInfo` row for the NaN-charge PRM target. -/
def nanChargePrmInfo : PrmInfoRow :=
  { frame := 20, target := 7, scanNumBegin := 0, scanNumEnd := 2,
    isolationMz := 600, isolationWidth := 2, collisionEnergy := 40 }

/-- A `PrmTargets` row with NaN charge but a present 1/K0 mobility. -/
def nanChargePrmTarget : PrmTargetRow :=
  { id := 7, oneOverK0 := 11 / 10, charge := none }

/-- Specification-side definition (spec section 4.5, PrecursorLinker):
the intended emission order of a window — each parent followed
immediately by the product records whose `parent_frame` equals the
parent's `frame`, tagged `true` for products. -/
def specLinkedOrder (parent_scans product_scans : List ScanDict) :
    List (ScanDict × Bool) :=
  parent_scans.flatMap (fun p =>
    (p, false) ::
      (product_scans.filter (fun q => decide (q.parent_frame = p.frame))).map
        (fun q => (q, true)))

/-- Specification-side definition: number an emission order consecutively
starting at `scan_count + 1`, giving each product (tagged `true`) a
`spectrum_reference` to the scan number of the most recently numbered
parent. -/
def specNumberLinked : List (ScanDict × Bool) → ℕ → Option ℕ →
    List EmittedSpectrum
  | [], _, _ => []
  | (r, isChild) :: rest, scan_count, lastParent =>
    ⟨scan_count + 1, { r with scan_number := some (scan_count + 1) },
        if isChild then lastParent else none⟩ ::
      specNumberLinked rest (scan_count + 1)
        (if isChild then lastParent else some (scan_count + 1))

instance {ε α : Type} [DecidableEq ε] [DecidableEq α] : DecidableEq (Except ε α) :=
  fun x y =>
    match x, y with
    | Except.ok a, Except.ok b =>
      if h : a = b then isTrue (by rw [h]) else isFalse (fun hc => h (Except.ok.inj hc))
    | Except.error e, Except.error f =>
      if h : e = f then isTrue (by rw [h]) else isFalse (fun hc => h (Except.error.inj hc))
    | Except.ok _, Except.error _ => isFalse (fun hc => Except.noConfusion hc)
    | Except.error _, Except.ok _ => isFalse (fun hc => Except.noConfusion hc)

theorem emitProducts_fst (qs : List ScanDict) (ref : Option ℕ) (sc : ℕ) :
    (emitProducts qs ref sc).1 = sc + qs.length := by
  induction qs generalizing sc with
  | nil => simp [emitProducts]
  | cons q rest ih =>
    simp only [emitProducts, List.length_cons, ih]
    omega

theorem emitProducts_length (qs : List ScanDict) (ref : Option ℕ) (sc : ℕ) :
    (emitProducts qs ref sc).2.length = qs.length := by
  induction qs generalizing sc with
  | nil => simp [emitProducts]
  | cons q rest ih => simp [emitProducts, ih]

theorem emitProducts_map_scanNumber (qs : List ScanDict) (ref : Option ℕ) (sc : ℕ) :
    ((emitProducts qs ref sc).2).map (fun e => e.scanNumber) =
      List.range' (sc + 1) qs.length := by
  induction qs generalizing sc with
  | nil => simp [emitProducts]
  | cons q rest ih =>
    simp only [emitProducts, List.length_cons, List.map_cons, List.range'_succ, ih]

theorem emitParents_spec (ps qs : List ScanDict) (sc : ℕ) :
    (emitParents ps qs sc).1 = sc + (emitParents ps qs sc).2.length ∧
    ((emitParents ps qs sc).2).map (fun e => e.scanNumber) =
      List.range' (sc + 1) (emitParents ps qs sc).2.length := by
  induction ps generalizing sc with
  | nil => simp [emitParents]
  | cons p rest ih =>
    have hfst := emitProducts_fst
      (qs.filter (fun i => decide (i.parent_frame = p.frame))) (some (sc + 1)) (sc + 1)
    have hlen := emitProducts_length
      (qs.filter (fun i => decide (i.parent_frame = p.frame))) (some (sc + 1)) (sc + 1)
    have hmap := emitProducts_map_scanNumber
      (qs.filter (fun i => decide (i.parent_frame = p.frame))) (some (sc + 1)) (sc + 1)
    obtain ⟨ih1, ih2⟩ := ih (sc + 1 +
      (qs.filter (fun i => decide (i.parent_frame = p.frame))).length)
    constructor
    · simp only [emitParents, hfst, ih1, List.length_cons, List.length_append, hlen]
      omega
    · simp only [emitParents, hfst, List.map_cons, List.map_append, hmap, ih2,
        List.length_cons, List.length_append, hlen]
      generalize (List.filter (fun i => decide (i.parent_frame = p.frame)) qs).length = a
      generalize (emitParents rest qs (sc + 1 + a)).2.length = b
      have happ : List.range' (sc + 1 + 1) a ++ List.range' (sc + 1 + 1 + a) b =
          List.range' (sc + 1 + 1) (b + a) := by
        have h0 := List.range'_append (sc + 1 + 1) a b 1
        rw [one_mul] at h0
        exact h0
      rw [show sc + 1 + a + 1 = sc + 1 + 1 + a from by omega, happ,
        show a + b + 1 = b + a + 1 from by omega, List.range'_succ]

theorem writeChunkSpectra_spec (ps qs : List ScanDict) (m : Bool) (sc : ℕ) :
    (writeChunkSpectra ps qs m sc).1 = sc + (writeChunkSpectra ps qs m sc).2.length ∧
    ((writeChunkSpectra ps qs m sc).2).map (fun e => e.scanNumber) =
      List.range' (sc + 1) (writeChunkSpectra ps qs m sc).2.length := by
  cases m with
  | false => simpa [writeChunkSpectra] using emitParents_spec ps qs sc
  | true =>
    refine ⟨?_, ?_⟩ <;>
      simp [writeChunkSpectra, emitProducts_fst, emitProducts_length,
        emitProducts_map_scanNumber]

theorem write_lcms_chunk_spec (tdf_data : TdfData) (fs fstop : ℤ) (sc : ℕ)
    (mode : Mode) (m : Bool) (em : Option Bool) (bins enc : ℕ)
    (res : ℕ × List EmittedSpectrum)
    (h : write_lcms_chunk_to_mzml tdf_data fs fstop sc mode m em bins enc =
      Except.ok res) :
    res.1 = sc + res.2.length ∧
    (res.2).map (fun e => e.scanNumber) = List.range' (sc + 1) res.2.length := by
  unfold write_lcms_chunk_to_mzml at h
  cases hp : parse_lcms_tdf tdf_data fs fstop mode m em bins enc with
  | error e => rw [hp] at h; exact absurd h (by simp [Except.bind])
  | ok pq =>
    rw [hp] at h
    simp only [Except.bind, pure, Except.pure] at h
    cases h
    exact writeChunkSpectra_spec pq.1 pq.2 m sc

theorem runWindows_spec (tdf_data : TdfData) (mode : Mode) (m : Bool)
    (em : Option Bool) (bins enc : ℕ) :
    ∀ (ws : List (ℤ × ℤ)) (sc : ℕ) (res : ℕ × List EmittedSpectrum),
      runWindows tdf_data mode m em bins enc ws sc = Except.ok res →
      res.1 = sc + res.2.length ∧
      (res.2).map (fun e => e.scanNumber) = List.range' (sc + 1) res.2.length
  | [], sc, res, h => by
    simp only [runWindows] at h
    cases h
    simp
  | w :: ws, sc, res, h => by
    simp only [runWindows] at h
    cases hc : write_lcms_chunk_to_mzml tdf_data w.1 w.2 sc mode m em bins enc with
    | error e => rw [hc] at h; simp [Bind.bind, Except.bind] at h
    | ok x =>
      rw [hc] at h
      simp only [Bind.bind, Except.bind] at h
      cases hr : runWindows tdf_data mode m em bins enc ws x.1 with
      | error e => rw [hr] at h; simp at h
      | ok y =>
        rw [hr] at h
        simp only [pure, Except.pure] at h
        cases h
        obtain ⟨hc1, hc2⟩ := write_lcms_chunk_spec tdf_data w.1 w.2 sc mode m em
          bins enc x hc
        obtain ⟨hr1, hr2⟩ := runWindows_spec tdf_data mode m em bins enc ws x.1 y hr
        refine ⟨by simp [hr1, hc1]; omega, ?_⟩
        simp only [List.map_append, hc2, List.length_append]
        rw [hr2, hc1]
        have h0 := List.range'_append (sc + 1) x.2.length y.2.length 1
        rw [one_mul] at h0
        rw [show sc + x.2.length + 1 = sc + 1 + x.2.length from by omega, h0,
          show y.2.length + x.2.length = x.2.length + y.2.length from by omega]

/-- C1: for every run written by the streaming serializer
(`write_lcms_mzml`), the scan numbers assigned to the emitted spectra are
exactly 1, 2, 3, … with no gaps — each emitted record's scan number is one
more than the previous one, starting at 1, and the final `scan_count`
equals the number of emitted spectra, regardless of how many frames were
dropped for empty arrays. -/
theorem scan_numbers_contiguous (tdf_data : TdfData) (mode : Mode)
    (ms2_only : Bool) (exclude_mobility : Option Bool)
    (profile_bins encoding chunk_size : ℕ)
    (res : ℕ × ℕ × List EmittedSpectrum)
    (h : write_lcms_mzml tdf_data mode ms2_only exclude_mobility profile_bins
      encoding chunk_size = Except.ok res) :
    (res.2.2).map (fun e => e.scanNumber) = List.range' 1 res.2.2.length ∧
    res.2.1 = res.2.2.length := by
  unfold write_lcms_mzml at h
  cases hb : build_chunk_list (ms1_frames tdf_data) tdf_data.frames.length
      chunk_size with
  | error e => rw [hb] at h; simp [Bind.bind, Except.bind] at h
  | ok windows =>
    rw [hb] at h
    simp only [Bind.bind, Except.bind] at h
    cases hr : runWindows tdf_data mode ms2_only exclude_mobility profile_bins
        encoding windows 0 with
    | error e => rw [hr] at h; simp at h
    | ok y =>
      rw [hr] at h
      simp only [pure, Except.pure] at h
      cases h
      obtain ⟨h1, h2⟩ := runWindows_spec tdf_data mode ms2_only exclude_mobility
        profile_bins encoding windows 0 y hr
      constructor
      · simpa using h2
      · simp only []
        omega

/-- Witness for C1: running the serializer on the concrete three-frame
MS1-only acquisition `dMs1Run`, whose middle frame decodes empty and is
dropped, yields the gap-free scan numbers 1, 2. -/
theorem scan_numbers_contiguous_witness :
    write_lcms_mzml dMs1Run Mode.centroid false (some true) 0 64 1 =
      Except.ok dMs1RunResult ∧
    (dMs1RunResult.2.2).map (fun e => e.scanNumber) =
      List.range' 1 dMs1RunResult.2.2.length ∧
    dMs1RunResult.2.1 = dMs1RunResult.2.2.length :=
  ⟨rfl, scan_numbers_contiguous dMs1Run Mode.centroid false (some true) 0 64 1
    dMs1RunResult rfl⟩

/-- Counterexample for C2: on the concrete diaPASEF acquisition `dDiaRun`
the pre-stream declared count (`get_spectra_count` = 2, counting only
`MsMsType == 0` frames and truthy-`MonoisotopicMz` precursors) is
strictly smaller than the 4 actually emitted spectra (each isolation
window of the dia frame emits its own record), so "declared pre-stream
count ≥ actual emitted count always" is false. -/
theorem declared_count_not_ge_emitted :
    write_lcms_mzml dDiaRun Mode.centroid false (some true) 0 64 1 =
      Except.ok dDiaRunResult ∧
    get_spectra_count dDiaRun = 2 ∧
    dDiaRunResult.2.1 = 4 ∧
    ¬ dDiaRunResult.2.1 ≤ get_spectra_count dDiaRun :=
  ⟨rfl, rfl, rfl, by decide⟩

/-- C2 (amended): the pre-stream declared count may differ from the
emitted count in either direction; what holds is the reconciliation law:
when the declared count equals the final emitted count the finalized
declared count is the original one (no correction), and when they differ
the finalized declared count is rewritten to exactly the emitted count. -/
theorem spectra_count_reconciliation (tdf_data : TdfData) (mode : Mode)
    (ms2_only : Bool) (exclude_mobility : Option Bool)
    (profile_bins encoding chunk_size : ℕ)
    (res : ℕ × ℕ × List EmittedSpectrum)
    (h : write_lcms_mzml tdf_data mode ms2_only exclude_mobility profile_bins
      encoding chunk_size = Except.ok res) :
    (get_spectra_count tdf_data = res.2.1 →
      res.1 = get_spectra_count tdf_data) ∧
    (get_spectra_count tdf_data ≠ res.2.1 → res.1 = res.2.1) := by
  unfold write_lcms_mzml at h
  cases hb : build_chunk_list (ms1_frames tdf_data) tdf_data.frames.length
      chunk_size with
  | error e => rw [hb] at h; simp [Bind.bind, Except.bind] at h
  | ok windows =>
    rw [hb] at h
    simp only [Bind.bind, Except.bind] at h
    cases hr : runWindows tdf_data mode ms2_only exclude_mobility profile_bins
        encoding windows 0 with
    | error e => rw [hr] at h; simp at h
    | ok y =>
      rw [hr] at h
      simp only [pure, Except.pure] at h
      cases h
      by_cases hq : get_spectra_count tdf_data = y.1 <;> simp [hq]

/-- Witness for C2: on `dDiaRun` the declared count 2 differs from the
emitted count 4, and the finalized declared count equals the emitted
count. -/
theorem spectra_count_reconciliation_witness :
    write_lcms_mzml dDiaRun Mode.centroid false (some true) 0 64 1 =
      Except.ok dDiaRunResult ∧
    dDiaRunResult.1 = dDiaRunResult.2.1 :=
  ⟨rfl, (spectra_count_reconciliation dDiaRun Mode.centroid false (some true)
    0 64 1 dDiaRunResult rfl).2 (by decide)⟩

theorem np_linspace_length (lo hi : ℚ) (n : ℕ) : (np_linspace lo hi n).length = n := by
  unfold np_linspace
  by_cases h0 : n = 0
  · simp [h0]
  · by_cases h1 : n = 1
    · simp [h0, h1]
    · rw [if_neg h0, if_neg h1, List.length_map, List.length_range]

theorem np_digitize_le (x : ℚ) (bins : List ℚ) : np_digitize x bins ≤ bins.length :=
  List.countP_le_length _

theorem sum_ite_zero (u : List ℕ) (k : ℕ) (hk : k ∉ u) (c : ℚ) :
    (u.map (fun v => if k = v then c else 0)).sum = 0 := by
  induction u with
  | nil => simp
  | cons a u ih =>
    simp only [List.map_cons, List.sum_cons]
    rw [if_neg (fun (h : k = a) => hk (by rw [h]; exact List.mem_cons_self a u)),
      ih (fun h => hk (List.mem_cons_of_mem a h))]
    simp

theorem sum_ite_single (u : List ℕ) (hn : u.Nodup) (k : ℕ) (hk : k ∈ u) (c : ℚ) :
    (u.map (fun v => if k = v then c else 0)).sum = c := by
  induction u with
  | nil => cases hk
  | cons a u ih =>
    simp only [List.map_cons, List.sum_cons]
    rcases List.mem_cons.mp hk with h | h
    · rw [if_pos h, sum_ite_zero u k (by rw [h]; exact (List.nodup_cons.mp hn).1) c]
      simp
    · have hka : ¬ k = a := fun he => (List.nodup_cons.mp hn).1 (he ▸ h)
      rw [if_neg hka, ih (List.nodup_cons.mp hn).2 h]
      simp

theorem sum_filtered_groups (pairs : List (ℚ × ℕ)) (u : List ℕ) (hn : u.Nodup)
    (hc : ∀ p ∈ pairs, p.2 ∈ u) :
    (u.map (fun v =>
        (((pairs.filter (fun p => decide (p.2 = v)))).map Prod.fst).sum)).sum =
      (pairs.map Prod.fst).sum := by
  induction pairs with
  | nil => simp
  | cons p rest ih =>
    have hrest : ∀ q ∈ rest, q.2 ∈ u := fun q hq => hc q (List.mem_cons_of_mem p hq)
    have hp : p.2 ∈ u := hc p (List.mem_cons_self p rest)
    have hstep : (u.map (fun v =>
        ((((p :: rest).filter (fun q => decide (q.2 = v)))).map Prod.fst).sum)).sum =
        (u.map (fun v => (if p.2 = v then p.1 else 0) +
          (((rest.filter (fun q => decide (q.2 = v)))).map Prod.fst).sum)).sum := by
      refine congrArg List.sum (List.map_congr_left (fun v _ => ?_))
      rw [List.filter_cons]
      by_cases hv : p.2 = v
      · simp [hv]
      · simp [hv]
    rw [hstep, List.sum_map_add, sum_ite_single u hn p.2 hp p.1, ih hrest]
    simp

theorem bin_profile_total_intensity (mz_array intensity_array : List ℚ)
    (profile_bins encoding : ℕ)
    (hlen : mz_array.length = intensity_array.length) :
    ((bin_profile_spectrum mz_array intensity_array profile_bins encoding).2).sum =
      intensity_array.sum := by
  unfold bin_profile_spectrum groupWeightSum
  simp only []
  set bins := np_linspace (mz_array.headD 0) (mz_array.getLastD 0) profile_bins
    with hbins
  set dig := mz_array.map (fun x => np_digitize x bins) with hdig
  set uniq := (List.range (profile_bins + 1)).filter (fun v => dig.contains v)
    with huniq
  have hnodup : uniq.Nodup := (List.nodup_range _).filter _
  have hmem : ∀ p ∈ intensity_array.zip dig, p.2 ∈ uniq := by
    intro p hpmem
    obtain ⟨-, h2⟩ := List.of_mem_zip hpmem
    rw [huniq, List.mem_filter]
    refine ⟨?_, by simpa [List.contains] using (List.elem_iff).mpr h2⟩
    rw [List.mem_range]
    obtain ⟨x, -, hx⟩ := List.mem_map.mp h2
    have hx2 : np_digitize x bins = p.2 := hx
    have hd := np_digitize_le x bins
    have hbl : bins.length = profile_bins := by
      rw [hbins]; exact np_linspace_length _ _ _
    omega
  have hsum := sum_filtered_groups (intensity_array.zip dig) uniq hnodup hmem
  have hle : intensity_array.length ≤ dig.length := by
    rw [hdig, List.length_map]
    omega
  rw [hsum, List.map_fst_zip intensity_array dig hle]

/-- Counterexample for C3: on the claim's own scenario
(`mz=[1, 1.02, 1.03, 5]`, `intensity=[10, 5, 5, 1]`, 2 bins over
`[1, 5]`) the binner outputs first m/z `61/60` — the plain arithmetic
mean `(1 + 1.02 + 1.03)/3` of the three m/z values digitized into the
first bin — which differs from the intensity-weighted mean
`(1·10 + 1.02·5 + 1.03·5)/(10+5+5) = 81/80` that the claim asserts. -/
theorem bin_profile_not_weighted_mean :
    bin_profile_spectrum [1, 51/50, 103/100, 5] [10, 5, 5, 1] 2 64 =
      ([61/60, 5], [20, 1]) ∧
    (61/60 : ℚ) ≠ (1 * 10 + (51/50) * 5 + (103/100) * 5) / (10 + 5 + 5) := by
  constructor
  · norm_num [bin_profile_spectrum, np_linspace, np_digitize, groupWeightSum,
      List.range_succ]
  · norm_num

/-- C3 (amended): the binner digitizes over `profile_bins` evenly spaced
edges spanning `[mz[0], mz[-1]]` (right-open, `np.digitize`); each
occupied bin's output intensity is the sum of its members' intensities —
so the output intensities always total the input intensities — and its
output m/z is the plain (unweighted) arithmetic mean of its members' m/z
values, not the intensity-weighted mean: the scenario yields exactly the
two points `((1 + 1.02 + 1.03)/3, 10+5+5)` and `(5/1, 1)`, whose
intensities sum to 21. -/
theorem bin_profile_arithmetic_mean (mz_array intensity_array : List ℚ)
    (profile_bins encoding : ℕ)
    (hlen : mz_array.length = intensity_array.length) :
    ((bin_profile_spectrum mz_array intensity_array profile_bins encoding).2).sum =
      intensity_array.sum ∧
    bin_profile_spectrum [1, 51/50, 103/100, 5] [10, 5, 5, 1] 2 64 =
      ([(1 + 51/50 + 103/100) / 3, 5 / 1], [10 + 5 + 5, 1]) ∧
    ([10 + 5 + 5, (1 : ℚ)].sum = 21) := by
  refine ⟨bin_profile_total_intensity mz_array intensity_array profile_bins
    encoding hlen, ?_, by norm_num⟩
  norm_num [bin_profile_spectrum, np_linspace, np_digitize, groupWeightSum,
    List.range_succ]

/-- Witness for C3 (amended): instantiated on the scenario input. -/
theorem bin_profile_arithmetic_mean_witness :
    ((bin_profile_spectrum [1, 51/50, 103/100, 5] [10, 5, 5, 1] 2 64).2).sum =
      ([10, 5, 5, 1] : List ℚ).sum ∧
    bin_profile_spectrum [1, 51/50, 103/100, 5] [10, 5, 5, 1] 2 64 =
      ([(1 + 51/50 + 103/100) / 3, 5 / 1], [10 + 5 + 5, 1]) :=
  ⟨(bin_profile_arithmetic_mean [1, 51/50, 103/100, 5] [10, 5, 5, 1] 2 64
      (by decide)).1,
   (bin_profile_arithmetic_mean [1, 51/50, 103/100, 5] [10, 5, 5, 1] 2 64
      (by decide)).2.1⟩

theorem mergeRows3_spec (rows : List (ℚ × ℚ × ℚ)) (mz it mob : List ℚ)
    (h : mergeRows3 rows = some (mz, it, mob)) :
    List.Chain' (· ≤ ·) mz ∧ (mz.zip (it.zip mob)).Nodup ∧
    mz.length = it.length ∧ mz.length = mob.length := by
  cases rows with
  | nil => simp [mergeRows3] at h
  | cons r rs =>
    simp only [mergeRows3, List.isEmpty_cons, Bool.false_eq_true, if_false,
      Option.some.injEq, Prod.mk.injEq] at h
    obtain ⟨h1, h2, h3⟩ := h
    subst h1 h2 h3
    have hnodup : (npUniqueRows3 (r :: rs)).Nodup :=
      ((List.perm_insertionSort lexLe3 (r :: rs).dedup).nodup_iff).mpr
        (List.nodup_dedup (r :: rs))
    have hsorted : List.Sorted lexLe3 (npUniqueRows3 (r :: rs)) :=
      List.sorted_insertionSort lexLe3 (r :: rs).dedup
    have hzip : ((npUniqueRows3 (r :: rs)).map (fun x => x.1)).zip
        (((npUniqueRows3 (r :: rs)).map (fun x => x.2.1)).zip
          ((npUniqueRows3 (r :: rs)).map (fun x => x.2.2))) =
        npUniqueRows3 (r :: rs) := by
      rw [List.zip_map' (fun (x : ℚ × ℚ × ℚ) => x.2.1)
        (fun (x : ℚ × ℚ × ℚ) => x.2.2),
        List.zip_map' (fun (x : ℚ × ℚ × ℚ) => x.1)
        (fun (x : ℚ × ℚ × ℚ) => (x.2.1, x.2.2))]
      exact List.map_id _
    refine ⟨?_, by rw [hzip]; exact hnodup, by simp, by simp⟩
    have hpair : List.Pairwise (fun (a b : ℚ) => a ≤ b)
        ((npUniqueRows3 (r :: rs)).map (fun x => x.1)) := by
      refine List.Pairwise.map _ (fun a b hab => ?_) hsorted
      rcases hab with hlt | ⟨heq, -⟩
      · exact le_of_lt hlt
      · exact le_of_eq heq
    exact hpair.chain'

/-- Counterexample for C4: two sub-scans decoding to the same m/z 100
with different intensities (5 and 7) survive the row-wise
`np.unique(..., axis=0)` dedup as two distinct rows, so the emitted
merged `mz_array` is `[100, 100]` — neither duplicate-free nor strictly
ascending. -/
theorem merged_mz_not_strictly_ascending :
    extract_3d_tdf_spectrum dDupMzScans 7 0 2 =
      some ([100, 100], [5, 7], [0, 0]) ∧
    ¬ ([100, 100] : List ℚ).Nodup ∧
    ¬ List.Chain' (· < ·) ([100, 100] : List ℚ) :=
  ⟨by decide, by decide, by simp [List.chain'_cons]⟩

/-- C4 (amended): after the merge the emitted `mz_array` is sorted
ascending (non-decreasing) and the combined (m/z, intensity, mobility)
rows are pairwise distinct and re-sorted lexicographically by m/z first —
but equal m/z values with different intensity or mobility may both
remain, so `mz_array` is not in general strictly ascending or
duplicate-free. -/
theorem merged_rows_sorted_distinct (tdf_data : TdfData) (frame : ℤ)
    (scan_begin scan_end : ℕ) (mz_array intensity_array mobility_array : List ℚ)
    (h : extract_3d_tdf_spectrum tdf_data frame scan_begin scan_end =
      some (mz_array, intensity_array, mobility_array)) :
    List.Chain' (· ≤ ·) mz_array ∧
    (mz_array.zip (intensity_array.zip mobility_array)).Nodup ∧
    mz_array.length = intensity_array.length ∧
    mz_array.length = mobility_array.length :=
  mergeRows3_spec _ mz_array intensity_array mobility_array h

/-- Witness for C4 (amended): a three-point two-sub-scan merge. -/
theorem merged_rows_sorted_distinct_witness :
    extract_3d_tdf_spectrum dThreePointScans 7 0 2 =
      some ([100, 150, 200], [5, 7, 5], [0, 1, 0]) ∧
    List.Chain' (· ≤ ·) ([100, 150, 200] : List ℚ) ∧
    (([100, 150, 200] : List ℚ).zip
      (([5, 7, 5] : List ℚ).zip ([0, 1, 0] : List ℚ))).Nodup :=
  ⟨by decide,
   (merged_rows_sorted_distinct dThreePointScans 7 0 2 [100, 150, 200]
      [5, 7, 5] [0, 1, 0] (by decide)).1,
   (merged_rows_sorted_distinct dThreePointScans 7 0 2 [100, 150, 200]
      [5, 7, 5] [0, 1, 0] (by decide)).2.1⟩

theorem foldl_max_mem (xs : List ℚ) : ∀ x : ℚ, xs.foldl max x ∈ x :: xs := by
  induction xs with
  | nil => intro x; simp
  | cons y ys ih =>
    intro x
    have hmem := ih (max x y)
    have hgoal : (y :: ys).foldl max x = ys.foldl max (max x y) := rfl
    rw [hgoal]
    rcases List.mem_cons.mp hmem with h2 | h2
    · rw [h2]
      rcases max_choice x y with h | h <;> rw [h]
      · exact List.mem_cons_self x (y :: ys)
      · exact List.mem_cons_of_mem x (List.mem_cons_self y ys)
    · exact List.mem_cons_of_mem x (List.mem_cons_of_mem y h2)

theorem le_foldl_max (xs : List ℚ) : ∀ x : ℚ, ∀ a ∈ x :: xs, a ≤ xs.foldl max x := by
  induction xs with
  | nil =>
    intro x a ha
    rcases List.mem_cons.mp ha with h | h
    · exact h.le
    · cases h
  | cons y ys ih =>
    intro x a ha
    have hbase : max x y ≤ ys.foldl max (max x y) :=
      ih (max x y) (max x y) (List.mem_cons_self _ _)
    rcases List.mem_cons.mp ha with h | h
    · rw [h]
      exact le_trans (le_max_left x y) hbase
    · rcases List.mem_cons.mp h with h2 | h2
      · rw [h2]
        exact le_trans (le_max_right x y) hbase
      · exact ih (max x y) a (List.mem_cons_of_mem _ h2)

theorem npMax_mem (l : List ℚ) (h : l ≠ []) : npMax l ∈ l := by
  cases l with
  | nil => exact absurd rfl h
  | cons x xs => exact foldl_max_mem xs x

theorem le_npMax (l : List ℚ) : ∀ a ∈ l, a ≤ npMax l := by
  cases l with
  | nil => intro a ha; cases ha
  | cons x xs => exact fun a ha => le_foldl_max xs x a ha

theorem firstMaxIdx_lt_length (l : List ℚ) (h : l ≠ []) :
    firstMaxIdx l < l.length :=
  List.findIdx_lt_length_of_exists ⟨npMax l, npMax_mem l h, by simp⟩

theorem getD_firstMaxIdx (l : List ℚ) (h : l ≠ []) :
    l.getD (firstMaxIdx l) 0 = npMax l := by
  have hlt := firstMaxIdx_lt_length l h
  rw [List.getD_eq_getElem l 0 hlt]
  have := List.findIdx_getElem (p := fun x => decide (x = npMax l)) (w := hlt)
  exact of_decide_eq_true this

theorem getD_lt_firstMaxIdx (l : List ℚ) (hne : l ≠ []) :
    ∀ j, j < firstMaxIdx l → l.getD j 0 ≠ npMax l := by
  intro j hj
  have hlt : j < l.length := lt_trans hj (firstMaxIdx_lt_length l hne)
  rw [List.getD_eq_getElem l 0 hlt]
  have := List.not_of_lt_findIdx (p := fun x => decide (x = npMax l)) hj
  simpa using this

/-- C5: for every record populated with non-empty spectrum arrays,
`total_ion_current` is the sum of the intensity array,
`base_peak_intensity` is its maximum, and `base_peak_mz` is the m/z at
the first index attaining that maximum (ties broken by first index). -/
theorem spectrum_data_derived_stats (sd : ScanDict)
    (mz_array intensity_array : List ℚ) (hne : intensity_array ≠ [])
    (hlen : mz_array.length = intensity_array.length) :
    (populate_scan_dict_w_spectrum_data sd mz_array
      intensity_array).total_ion_current = some intensity_array.sum ∧
    (populate_scan_dict_w_spectrum_data sd mz_array
      intensity_array).base_peak_intensity = some (npMax intensity_array) ∧
    npMax intensity_array ∈ intensity_array ∧
    (∀ x ∈ intensity_array, x ≤ npMax intensity_array) ∧
    (populate_scan_dict_w_spectrum_data sd mz_array
      intensity_array).base_peak_mz =
      some (mz_array.getD (firstMaxIdx intensity_array) 0) ∧
    firstMaxIdx intensity_array < mz_array.length ∧
    intensity_array.getD (firstMaxIdx intensity_array) 0 =
      npMax intensity_array ∧
    ∀ j, j < firstMaxIdx intensity_array →
      intensity_array.getD j 0 ≠ npMax intensity_array := by
  refine ⟨rfl, ?_, npMax_mem intensity_array hne, le_npMax intensity_array, rfl,
    ?_, getD_firstMaxIdx intensity_array hne, getD_lt_firstMaxIdx intensity_array hne⟩
  · show some (intensity_array.getD (firstMaxIdx intensity_array) 0) = _
    rw [getD_firstMaxIdx intensity_array hne]
  · rw [hlen]
    exact firstMaxIdx_lt_length intensity_array hne

/-- Witness for C5: arrays `mz=[10,20,30]`, `intensity=[5,9,9]` — the
maximum 9 first occurs at index 1, so the base peak m/z is 20. -/
theorem spectrum_data_derived_stats_witness :
    (populate_scan_dict_w_spectrum_data init_scan_dict [10, 20, 30]
      [5, 9, 9]).total_ion_current = some ([5, 9, 9] : List ℚ).sum ∧
    (populate_scan_dict_w_spectrum_data init_scan_dict [10, 20, 30]
      [5, 9, 9]).base_peak_intensity = some (npMax [5, 9, 9]) ∧
    (populate_scan_dict_w_spectrum_data init_scan_dict [10, 20, 30]
      [5, 9, 9]).base_peak_mz =
      some (([10, 20, 30] : List ℚ).getD (firstMaxIdx [5, 9, 9]) 0) ∧
    npMax ([5, 9, 9] : List ℚ) ∈ ([5, 9, 9] : List ℚ) :=
  ⟨(spectrum_data_derived_stats init_scan_dict [10, 20, 30] [5, 9, 9]
      (by decide) (by decide)).1,
   (spectrum_data_derived_stats init_scan_dict [10, 20, 30] [5, 9, 9]
      (by decide) (by decide)).2.1,
   (spectrum_data_derived_stats init_scan_dict [10, 20, 30] [5, 9, 9]
      (by decide) (by decide)).2.2.2.2.1,
   (spectrum_data_derived_stats init_scan_dict [10, 20, 30] [5, 9, 9]
      (by decide) (by decide)).2.2.1⟩

theorem specNumberLinked_children (qs : List ScanDict)
    (rest : List (ScanDict × Bool)) (sc n0 : ℕ) :
    specNumberLinked (qs.map (fun q => (q, true)) ++ rest) sc (some n0) =
      (emitProducts qs (some n0) sc).2 ++
        specNumberLinked rest (sc + qs.length) (some n0) := by
  induction qs generalizing sc with
  | nil => simp [emitProducts]
  | cons q qs2 ih =>
    have ih2 := ih (sc + 1)
    simp only [List.map_cons, List.cons_append, specNumberLinked, if_true,
      emitProducts, List.length_cons, List.append_eq] at ih2 ⊢
    rw [ih2, show sc + (qs2.length + 1) = sc + 1 + qs2.length from by omega]

theorem emitParents_eq_specNumberLinked (ps qs : List ScanDict) :
    ∀ (sc : ℕ) (lp : Option ℕ),
      (emitParents ps qs sc).2 = specNumberLinked (specLinkedOrder ps qs) sc lp := by
  induction ps with
  | nil => intro sc lp; simp [emitParents, specLinkedOrder, specNumberLinked]
  | cons p rest ih =>
    intro sc lp
    have hlist : specLinkedOrder (p :: rest) qs =
        (p, false) ::
          ((qs.filter (fun q => decide (q.parent_frame = p.frame))).map
              (fun q => (q, true)) ++
            specLinkedOrder rest qs) := by
      simp [specLinkedOrder]
    rw [hlist]
    simp only [emitParents, specNumberLinked, if_neg Bool.false_ne_true]
    rw [specNumberLinked_children, emitProducts_fst, ← ih]

/-- C6: in a window written with `ms2_only = False`, the chunk writer
emits exactly the parents in order, each parent immediately followed by
the product records whose `parent_frame` equals its `frame`, numbered
consecutively from `scan_count + 1`, with every product carrying a
`spectrum_reference` to its parent's scan number — which is precisely
`specNumberLinked (specLinkedOrder parents products)`.  In particular one
MS1 parent with frame 10 and two products with `parent_frame` 10 is
emitted as MS1 then its two products with consecutive numbers. -/
theorem parent_then_children_emission (parent_scans product_scans : List ScanDict)
    (scan_count : ℕ) :
    (writeChunkSpectra parent_scans product_scans false scan_count).2 =
      specNumberLinked (specLinkedOrder parent_scans product_scans)
        scan_count none := by
  show (emitParents parent_scans product_scans scan_count).2 = _
  exact emitParents_eq_specNumberLinked parent_scans product_scans scan_count none

/-- C7 evaluated at the failing input: when `ms2_only` is false and a
window has no parent records, its product records are *not* emitted —
`write_lcms_chunk_to_mzml` takes the `if not ms2_only:` branch, whose
loop over the empty parent list writes nothing, and the
`elif ms2_only or parent_scans == []:` standalone-emission branch is
unreachable.  (Second conjunct: with `ms2_only` true the same orphan
product *is* emitted standalone with no `spectrum_reference`.) -/
theorem orphan_products_dropped (q : ScanDict) (scan_count : ℕ) :
    writeChunkSpectra [] [q] false scan_count = (scan_count, []) ∧
    writeChunkSpectra [] [q] true scan_count =
      (scan_count + 1,
        [⟨scan_count + 1, { q with scan_number := some (scan_count + 1) },
          none⟩]) :=
  ⟨rfl, rfl⟩

/-- C8 evaluated at the failing input: on a frame all of whose sub-scans
decode to empty arrays, the 3-D extractor does return the explicit
"empty" value `None` (not an error) — but the caller `parse_lcms_tdf`
then evaluates `mz_array.size` on `None` before reaching its
`mz_array is not None` check, raising AttributeError instead of dropping
the record. -/
theorem empty_3d_extraction_raises :
    extract_3d_tdf_spectrum dEmptyFrameRun 1 0 2 = none ∧
    parse_lcms_tdf dEmptyFrameRun 1 2 Mode.centroid false none 0 64 =
      Except.error "AttributeError" :=
  ⟨rfl, rfl⟩

/-- C9: a NaN (or absent) charge state suppresses exactly the CCS
computation: for both the ddaPASEF and the prmPASEF record builders,
`selected_ion_ccs` is left unset while `selected_ion_mobility` and the
other precursor fields are still populated. -/
theorem nan_charge_suppresses_ccs (tdf_data : TdfData) (sd sd2 : ScanDict)
    (precursor_dict : PrecursorRow) (pasef0 : PasefRow)
    (pasefRest : List PasefRow) (prmInfo : PrmInfoRow)
    (prmTarget : PrmTargetRow)
    (hsd : sd.selected_ion_ccs = none) (hsd2 : sd2.selected_ion_ccs = none)
    (hq : precursor_dict.charge = none) (ht : prmTarget.charge = none) :
    ((populate_scan_dict_w_ddapasef_ms2 sd tdf_data precursor_dict
        (pasef0 :: pasefRest)).map (fun r => r.selected_ion_ccs) =
      Except.ok none ∧
     (populate_scan_dict_w_ddapasef_ms2 sd tdf_data precursor_dict
        (pasef0 :: pasefRest)).map (fun r => r.selected_ion_mobility) =
      Except.ok (some (tdf_data.scanNumToOneOverK0 precursor_dict.parent
        (pyInt precursor_dict.scanNumber))) ∧
     (populate_scan_dict_w_ddapasef_ms2 sd tdf_data precursor_dict
        (pasef0 :: pasefRest)).map (fun r => r.charge_state) =
      Except.ok none ∧
     (populate_scan_dict_w_ddapasef_ms2 sd tdf_data precursor_dict
        (pasef0 :: pasefRest)).map (fun r => r.collision_energy) =
      Except.ok (some pasef0.collisionEnergy) ∧
     (populate_scan_dict_w_ddapasef_ms2 sd tdf_data precursor_dict
        (pasef0 :: pasefRest)).map (fun r => r.parent_frame) =
      Except.ok (some precursor_dict.parent)) ∧
    ((populate_scan_dict_w_prmpasef_ms2 tdf_data sd2 prmInfo
        prmTarget).selected_ion_ccs = none ∧
     (populate_scan_dict_w_prmpasef_ms2 tdf_data sd2 prmInfo
        prmTarget).selected_ion_mobility = some prmTarget.oneOverK0 ∧
     (populate_scan_dict_w_prmpasef_ms2 tdf_data sd2 prmInfo
        prmTarget).charge_state = none ∧
     (populate_scan_dict_w_prmpasef_ms2 tdf_data sd2 prmInfo
        prmTarget).target_mz = some prmInfo.isolationMz) := by
  refine ⟨⟨?_, ?_, ?_, ?_, ?_⟩, ⟨?_, ?_, ?_, ?_⟩⟩ <;>
    simp [populate_scan_dict_w_ddapasef_ms2, populate_scan_dict_w_prmpasef_ms2,
      hq, ht, hsd, hsd2, Except.map]

/-- Witness for C9: the NaN-charge precursor and PRM target rows. -/
theorem nan_charge_suppresses_ccs_witness :
    (populate_scan_dict_w_ddapasef_ms2 init_scan_dict trivialTdf
        nanChargePrecursor [nanChargePasefRow]).map
      (fun r => r.selected_ion_ccs) = Except.ok none ∧
    (populate_scan_dict_w_ddapasef_ms2 init_scan_dict trivialTdf
        nanChargePrecursor [nanChargePasefRow]).map
      (fun r => r.selected_ion_mobility) =
      Except.ok (some (trivialTdf.scanNumToOneOverK0 nanChargePrecursor.parent
        (pyInt nanChargePrecursor.scanNumber))) ∧
    (populate_scan_dict_w_prmpasef_ms2 trivialTdf init_scan_dict
      nanChargePrmInfo nanChargePrmTarget).selected_ion_ccs = none ∧
    (populate_scan_dict_w_prmpasef_ms2 trivialTdf init_scan_dict
      nanChargePrmInfo nanChargePrmTarget).selected_ion_mobility =
      some nanChargePrmTarget.oneOverK0 :=
  ⟨(nan_charge_suppresses_ccs trivialTdf init_scan_dict init_scan_dict
      nanChargePrecursor nanChargePasefRow [] nanChargePrmInfo
      nanChargePrmTarget rfl rfl rfl rfl).1.1,
   (nan_charge_suppresses_ccs trivialTdf init_scan_dict init_scan_dict
      nanChargePrecursor nanChargePasefRow [] nanChargePrmInfo
      nanChargePrmTarget rfl rfl rfl rfl).1.2.1,
   (nan_charge_suppresses_ccs trivialTdf init_scan_dict init_scan_dict
      nanChargePrecursor nanChargePasefRow [] nanChargePrmInfo
      nanChargePrmTarget rfl rfl rfl rfl).2.1,
   (nan_charge_suppresses_ccs trivialTdf init_scan_dict init_scan_dict
      nanChargePrecursor nanChargePasefRow [] nanChargePrmInfo
      nanChargePrmTarget rfl rfl rfl rfl).2.2.1⟩

theorem mobility_lcms_metadata (sd : ScanDict) (fr : FrameRow) (mode : Mode)
    (em : Option Bool) :
    (populate_scan_dict_w_lcms_tsf_tdf_metadata sd fr mode em).mobility_array =
      sd.mobility_array := rfl

theorem mobility_ms1 (sd : ScanDict) (f : ℤ) :
    (populate_scan_dict_w_ms1 sd f).mobility_array = sd.mobility_array := rfl

theorem mobility_spectrum_data (sd : ScanDict) (mz it : List ℚ) :
    (populate_scan_dict_w_spectrum_data sd mz it).mobility_array =
      sd.mobility_array := rfl

theorem mobility_diapasef (sd : ScanDict) (w : DiaWindowRow) :
    (populate_scan_dict_w_diapasef_ms2 sd w).mobility_array =
      sd.mobility_array := rfl

theorem mobility_bbcid (sd : ScanDict) (f : ℤ) (info : FrameMsMsInfoRow) :
    (populate_scan_dict_w_bbcid_iscid_ms2 sd f info).mobility_array =
      sd.mobility_array := rfl

theorem mobility_tsf_ms2 (sd : ScanDict) (info : FrameMsMsInfoRow) (lcms : Bool) :
    (populate_scan_dict_w_tsf_ms2 sd info lcms).mobility_array =
      sd.mobility_array := by
  cases lcms <;> rfl

theorem mobility_prmpasef (tdf_data : TdfData) (sd : ScanDict)
    (info : PrmInfoRow) (t : PrmTargetRow) :
    (populate_scan_dict_w_prmpasef_ms2 tdf_data sd info t).mobility_array =
      sd.mobility_array := by
  unfold populate_scan_dict_w_prmpasef_ms2
  cases t.charge <;> rfl

theorem mobility_ddapasef (sd : ScanDict) (tdf_data : TdfData)
    (prec : PrecursorRow) (rows : List PasefRow) (r : ScanDict)
    (h : populate_scan_dict_w_ddapasef_ms2 sd tdf_data prec rows =
      Except.ok r) :
    r.mobility_array = sd.mobility_array := by
  cases rows with
  | nil => exact Except.noConfusion h
  | cons p0 ps =>
    unfold populate_scan_dict_w_ddapasef_ms2 at h
    cases hc : prec.charge <;> rw [hc] at h <;>
      exact (Except.ok.inj h) ▸ rfl

theorem parse_tdf_ms1_frame_no_mobility (tdf_data : TdfData) (fr : FrameRow)
    (f : ℤ) (mode : Mode) (em : Option Bool) (bins enc : ℕ)
    (l : List ScanDict) (hem : emTruthy em = true)
    (h : parse_tdf_ms1_frame tdf_data fr f mode em bins enc = Except.ok l) :
    ∀ sd ∈ l, sd.mobility_array = none := by
  unfold parse_tdf_ms1_frame at h
  rw [hem, if_neg (fun hcc : (true : Bool) = false => Bool.noConfusion hcc)] at h
  split at h
  · exact Except.noConfusion h
  · split at h
    · have hl : l = [populate_scan_dict_w_spectrum_data
          (populate_scan_dict_w_ms1
            (populate_scan_dict_w_lcms_tsf_tdf_metadata init_scan_dict fr mode em)
            f) _ _] := (Except.ok.inj h).symm
      intro sd hsd
      rw [hl, List.mem_singleton] at hsd
      rw [hsd, mobility_spectrum_data, mobility_ms1, mobility_lcms_metadata]
      rfl
    · have hl : l = [] := (Except.ok.inj h).symm
      intro sd hsd
      rw [hl] at hsd
      cases hsd

theorem dda_product_step_no_mobility (tdf_data : TdfData) (fr : FrameRow)
    (mode : Mode) (em : Option Bool) (bins enc : ℕ)
    (acc l : List ScanDict) (pd : PrecursorRow)
    (hacc : ∀ x ∈ acc, x.mobility_array = none)
    (h : dda_product_step tdf_data fr mode em bins enc acc pd = Except.ok l) :
    ∀ sd ∈ l, sd.mobility_array = none := by
  unfold dda_product_step at h
  simp only [] at h
  cases hx : extract_ddapasef_precursor_spectrum tdf_data
      (tdf_data.pasefFrameMsMsInfo.filter
        (fun r => decide (r.precursor = pd.id))) mode bins enc with
  | error e => rw [hx] at h; simp [Bind.bind, Except.bind] at h
  | ok res =>
    rw [hx] at h
    simp only [Bind.bind, Except.bind] at h
    split at h
    · have hl : l = acc := (Except.ok.inj h).symm
      rw [hl]
      exact hacc
    · cases hp : populate_scan_dict_w_ddapasef_ms2
          (populate_scan_dict_w_lcms_tsf_tdf_metadata init_scan_dict fr mode em)
          tdf_data pd
          (tdf_data.pasefFrameMsMsInfo.filter
            (fun r => decide (r.precursor = pd.id))) with
      | error e => rw [hp] at h; simp at h
      | ok sd2 =>
        rw [hp] at h
        simp only [pure, Except.pure] at h
        have hl := (Except.ok.inj h).symm
        intro sd hsd
        rw [hl] at hsd
        rcases List.mem_append.mp hsd with hmem | hmem
        · exact hacc sd hmem
        · rw [List.mem_singleton] at hmem
          rw [hmem, mobility_spectrum_data,
            mobility_ddapasef _ _ _ _ _ hp, mobility_lcms_metadata]
          rfl

theorem dda_fold_no_mobility (tdf_data : TdfData) (fr : FrameRow) (mode : Mode)
    (em : Option Bool) (bins enc : ℕ) :
    ∀ (pds : List PrecursorRow) (acc l : List ScanDict),
      (∀ x ∈ acc, x.mobility_array = none) →
      pds.foldlM (dda_product_step tdf_data fr mode em bins enc) acc =
        Except.ok l →
      ∀ sd ∈ l, sd.mobility_array = none
  | [], acc, l, hacc, h => by
    simp only [List.foldlM_nil, pure, Except.pure] at h
    exact (Except.ok.inj h) ▸ hacc
  | pd :: pds, acc, l, hacc, h => by
    rw [List.foldlM_cons] at h
    cases hs : dda_product_step tdf_data fr mode em bins enc acc pd with
    | error e => rw [hs] at h; simp [Bind.bind, Except.bind] at h
    | ok acc2 =>
      rw [hs] at h
      simp only [Bind.bind, Except.bind] at h
      exact dda_fold_no_mobility tdf_data fr mode em bins enc pds acc2 l
        (dda_product_step_no_mobility tdf_data fr mode em bins enc acc acc2 pd
          hacc hs) h

theorem dia_window_step_no_mobility (tdf_data : TdfData) (fr : FrameRow)
    (f : ℤ) (mode : Mode) (em : Option Bool) (bins enc : ℕ)
    (acc l : List ScanDict) (w : DiaWindowRow) (hem : emTruthy em = true)
    (h : dia_window_step tdf_data fr f mode em bins enc acc w = Except.ok l)
    (hacc : ∀ x ∈ acc, x.mobility_array = none) :
    ∀ sd ∈ l, sd.mobility_array = none := by
  unfold dia_window_step at h
  simp only [] at h
  rw [hem, if_neg (fun hcc : (true : Bool) = false => Bool.noConfusion hcc)] at h
  split at h
  · exact Except.noConfusion h
  · split at h
    · have hl := (Except.ok.inj h).symm
      intro sd hsd
      rw [hl] at hsd
      rcases List.mem_append.mp hsd with hmem | hmem
      · exact hacc sd hmem
      · rw [List.mem_singleton] at hmem
        rw [hmem, mobility_spectrum_data, mobility_diapasef,
          mobility_lcms_metadata]
        rfl
    · have hl : l = acc := (Except.ok.inj h).symm
      rw [hl]
      exact hacc

theorem dia_fold_no_mobility (tdf_data : TdfData) (fr : FrameRow) (f : ℤ)
    (mode : Mode) (em : Option Bool) (bins enc : ℕ) (hem : emTruthy em = true) :
    ∀ (ws : List DiaWindowRow) (acc l : List ScanDict),
      (∀ x ∈ acc, x.mobility_array = none) →
      ws.foldlM (dia_window_step tdf_data fr f mode em bins enc) acc =
        Except.ok l →
      ∀ sd ∈ l, sd.mobility_array = none
  | [], acc, l, hacc, h => by
    simp only [List.foldlM_nil, pure, Except.pure] at h
    exact (Except.ok.inj h) ▸ hacc
  | w :: ws, acc, l, hacc, h => by
    rw [List.foldlM_cons] at h
    cases hs : dia_window_step tdf_data fr f mode em bins enc acc w with
    | error e => rw [hs] at h; simp [Bind.bind, Except.bind] at h
    | ok acc2 =>
      rw [hs] at h
      simp only [Bind.bind, Except.bind] at h
      exact dia_fold_no_mobility tdf_data fr f mode em bins enc hem ws acc2 l
        (dia_window_step_no_mobility tdf_data fr f mode em bins enc acc acc2 w
          hem hs hacc) h

theorem parse_tdf_dia_frame_no_mobility (tdf_data : TdfData) (fr : FrameRow)
    (f : ℤ) (mode : Mode) (em : Option Bool) (bins enc : ℕ)
    (l : List ScanDict) (hem : emTruthy em = true)
    (h : parse_tdf_dia_frame tdf_data fr f mode em bins enc = Except.ok l) :
    ∀ sd ∈ l, sd.mobility_array = none := by
  unfold parse_tdf_dia_frame at h
  cases ht : tableHead (tdf_data.diaFrameMsMsInfo.filter
      (fun r => decide (r.frame = f))) with
  | error e => rw [ht] at h; simp [Bind.bind, Except.bind] at h
  | ok info =>
    rw [ht] at h
    simp only [Bind.bind, Except.bind] at h
    exact dia_fold_no_mobility tdf_data fr f mode em bins enc hem _ [] l
      (fun x hx => absurd hx (List.not_mem_nil x)) h

theorem parse_tdf_bbcid_frame_no_mobility (tdf_data : TdfData) (fr : FrameRow)
    (f : ℤ) (mode : Mode) (em : Option Bool) (bins enc : ℕ)
    (l : List ScanDict) (hem : emTruthy em = true)
    (h : parse_tdf_bbcid_frame tdf_data fr f mode em bins enc = Except.ok l) :
    ∀ sd ∈ l, sd.mobility_array = none := by
  unfold parse_tdf_bbcid_frame at h
  cases ht : tableHead (tdf_data.frameMsMsInfo.filter
      (fun r => decide (r.frame = f))) with
  | error e => rw [ht] at h; simp [Bind.bind, Except.bind] at h
  | ok info =>
    rw [ht] at h
    simp only [Bind.bind, Except.bind] at h
    rw [hem, if_neg (fun hcc : (true : Bool) = false => Bool.noConfusion hcc)] at h
    split at h
    · exact Except.noConfusion h
    · split at h
      · have hl := (Except.ok.inj h).symm
        intro sd hsd
        rw [hl, List.mem_singleton] at hsd
        rw [hsd, mobility_spectrum_data, mobility_bbcid, mobility_lcms_metadata]
        rfl
      · have hl : l = [] := (Except.ok.inj h).symm
        intro sd hsd
        rw [hl] at hsd
        cases hsd

theorem parse_tdf_mrm_frame_no_mobility (tdf_data : TdfData) (fr : FrameRow)
    (f : ℤ) (mode : Mode) (em : Option Bool) (bins enc : ℕ)
    (l : List ScanDict)
    (h : parse_tdf_mrm_frame tdf_data fr f mode em bins enc = Except.ok l) :
    ∀ sd ∈ l, sd.mobility_array = none := by
  unfold parse_tdf_mrm_frame at h
  cases ht : tableHead (tdf_data.frameMsMsInfo.filter
      (fun r => decide (r.frame = f))) with
  | error e => rw [ht] at h; simp [Bind.bind, Except.bind] at h
  | ok info =>
    rw [ht] at h
    simp only [Bind.bind, Except.bind] at h
    split at h
    · exact Except.noConfusion h
    · split at h
      · have hl := (Except.ok.inj h).symm
        intro sd hsd
        rw [hl, List.mem_singleton] at hsd
        rw [hsd, mobility_spectrum_data, mobility_tsf_ms2, mobility_lcms_metadata]
        rfl
      · have hl : l = [] := (Except.ok.inj h).symm
        intro sd hsd
        rw [hl] at hsd
        cases hsd

theorem parse_tdf_prm_frame_no_mobility (tdf_data : TdfData) (fr : FrameRow)
    (f : ℤ) (mode : Mode) (em : Option Bool) (bins enc : ℕ)
    (l : List ScanDict)
    (h : parse_tdf_prm_frame tdf_data fr f mode em bins enc = Except.ok l) :
    ∀ sd ∈ l, sd.mobility_array = none := by
  unfold parse_tdf_prm_frame at h
  cases ht : tableHead (tdf_data.prmFrameMsMsInfo.filter
      (fun r => decide (r.frame = f))) with
  | error e => rw [ht] at h; simp [Bind.bind, Except.bind] at h
  | ok info =>
    rw [ht] at h
    simp only [Bind.bind, Except.bind] at h
    cases ht2 : tableHead (tdf_data.prmTargets.filter
        (fun t => decide (t.id = info.target))) with
    | error e => rw [ht2] at h; simp at h
    | ok target =>
      rw [ht2] at h
      simp only [] at h
      split at h
      · exact Except.noConfusion h
      · split at h
        · have hl := (Except.ok.inj h).symm
          intro sd hsd
          rw [hl, List.mem_singleton] at hsd
          rw [hsd, mobility_spectrum_data, mobility_prmpasef,
            mobility_lcms_metadata]
          rfl
        · have hl : l = [] := (Except.ok.inj h).symm
          intro sd hsd
          rw [hl] at hsd
          cases hsd

theorem parse_tdf_dda_products_no_mobility (tdf_data : TdfData) (fr : FrameRow)
    (f : ℤ) (mode : Mode) (em : Option Bool) (bins enc : ℕ)
    (l : List ScanDict)
    (h : parse_tdf_dda_products tdf_data fr f mode em bins enc = Except.ok l) :
    ∀ sd ∈ l, sd.mobility_array = none := by
  unfold parse_tdf_dda_products at h
  exact dda_fold_no_mobility tdf_data fr mode em bins enc _ [] l
    (fun x hx => absurd hx (List.not_mem_nil x)) h

theorem parse_tdf_frame_no_mobility (tdf_data : TdfData) (fs fstop : ℤ)
    (mode : Mode) (ms2_only : Bool) (em : Option Bool) (bins enc : ℕ) (f : ℤ)
    (res : List ScanDict × List ScanDict) (hem : emTruthy em = true)
    (h : parse_tdf_frame tdf_data fs fstop mode ms2_only em bins enc f =
      Except.ok res) :
    (∀ sd ∈ res.1, sd.mobility_array = none) ∧
    (∀ sd ∈ res.2, sd.mobility_array = none) := by
  unfold parse_tdf_frame at h
  cases ht : tableHead (tdf_data.frames.filter (fun r => decide (r.id = f))) with
  | error e => rw [ht] at h; simp [Bind.bind, Except.bind] at h
  | ok fr =>
    rw [ht] at h
    simp only [Bind.bind, Except.bind] at h
    split at h
    · cases hp : parse_tdf_ms1_frame tdf_data fr f mode em bins enc with
      | error e => rw [hp] at h; simp at h
      | ok parents =>
        rw [hp] at h
        simp only [] at h
        have hms1 := parse_tdf_ms1_frame_no_mobility tdf_data fr f mode em
          bins enc parents hem hp
        split at h
        · split at h
          · cases hq : parse_tdf_dda_products tdf_data fr f mode em bins enc with
            | error e => rw [hq] at h; simp at h
            | ok products =>
              rw [hq] at h
              simp only [pure, Except.pure] at h
              have hres := (Except.ok.inj h).symm
              rw [hres]
              exact ⟨hms1, parse_tdf_dda_products_no_mobility tdf_data fr f
                mode em bins enc products hq⟩
          · have h2 : Except.ok (parents, ([] : List ScanDict)) =
                Except.ok res := h
            have hres := (Except.ok.inj h2).symm
            rw [hres]
            exact ⟨hms1, fun sd hsd => absurd hsd (List.not_mem_nil sd)⟩
        · have h2 : Except.ok (parents, ([] : List ScanDict)) =
              Except.ok res := h
          have hres := (Except.ok.inj h2).symm
          rw [hres]
          exact ⟨hms1, fun sd hsd => absurd hsd (List.not_mem_nil sd)⟩
    · split at h
      · cases hp : parse_tdf_dia_frame tdf_data fr f mode em bins enc with
        | error e => rw [hp] at h; simp at h
        | ok parents =>
          rw [hp] at h
          simp only [pure, Except.pure] at h
          have hres := (Except.ok.inj h).symm
          rw [hres]
          exact ⟨parse_tdf_dia_frame_no_mobility tdf_data fr f mode em bins enc
            parents hem hp, fun sd hsd => absurd hsd (List.not_mem_nil sd)⟩
      · split at h
        · cases hp : parse_tdf_bbcid_frame tdf_data fr f mode em bins enc with
          | error e => rw [hp] at h; simp at h
          | ok parents =>
            rw [hp] at h
            simp only [pure, Except.pure] at h
            have hres := (Except.ok.inj h).symm
            rw [hres]
            exact ⟨parse_tdf_bbcid_frame_no_mobility tdf_data fr f mode em bins
              enc parents hem hp, fun sd hsd => absurd hsd (List.not_mem_nil sd)⟩
        · split at h
          · cases hp : parse_tdf_mrm_frame tdf_data fr f mode em bins enc with
            | error e => rw [hp] at h; simp at h
            | ok parents =>
              rw [hp] at h
              simp only [pure, Except.pure] at h
              have hres := (Except.ok.inj h).symm
              rw [hres]
              exact ⟨parse_tdf_mrm_frame_no_mobility tdf_data fr f mode em bins
                enc parents hp, fun sd hsd => absurd hsd (List.not_mem_nil sd)⟩
          · split at h
            · cases hp : parse_tdf_prm_frame tdf_data fr f mode em bins enc with
              | error e => rw [hp] at h; simp at h
              | ok parents =>
                rw [hp] at h
                simp only [pure, Except.pure] at h
                have hres := (Except.ok.inj h).symm
                rw [hres]
                exact ⟨parse_tdf_prm_frame_no_mobility tdf_data fr f mode em
                  bins enc parents hp,
                  fun sd hsd => absurd hsd (List.not_mem_nil sd)⟩
            · simp only [pure, Except.pure] at h
              have hres := (Except.ok.inj h).symm
              rw [hres]
              exact ⟨fun sd hsd => absurd hsd (List.not_mem_nil sd),
                fun sd hsd => absurd hsd (List.not_mem_nil sd)⟩

theorem parse_lcms_tdf_frames_no_mobility (tdf_data : TdfData) (fs fstop : ℤ)
    (mode : Mode) (ms2_only : Bool) (em : Option Bool) (bins enc : ℕ)
    (hem : emTruthy em = true) :
    ∀ (fl : List ℤ) (res : List ScanDict × List ScanDict),
      parse_lcms_tdf_frames tdf_data fs fstop mode ms2_only em bins enc fl =
        Except.ok res →
      (∀ sd ∈ res.1, sd.mobility_array = none) ∧
      (∀ sd ∈ res.2, sd.mobility_array = none)
  | [], res, h => by
    simp only [parse_lcms_tdf_frames] at h
    have hres := (Except.ok.inj h).symm
    rw [hres]
    exact ⟨fun sd hsd => absurd hsd (List.not_mem_nil sd),
      fun sd hsd => absurd hsd (List.not_mem_nil sd)⟩
  | f :: fl, res, h => by
    simp only [parse_lcms_tdf_frames] at h
    cases hf : parse_tdf_frame tdf_data fs fstop mode ms2_only em bins enc f with
    | error e => rw [hf] at h; simp [Bind.bind, Except.bind] at h
    | ok pq =>
      rw [hf] at h
      simp only [Bind.bind, Except.bind] at h
      cases hr : parse_lcms_tdf_frames tdf_data fs fstop mode ms2_only em bins
          enc fl with
      | error e => rw [hr] at h; simp at h
      | ok pq2 =>
        rw [hr] at h
        simp only [pure, Except.pure] at h
        have hres := (Except.ok.inj h).symm
        obtain ⟨hf1, hf2⟩ := parse_tdf_frame_no_mobility tdf_data fs fstop mode
          ms2_only em bins enc f pq hem hf
        obtain ⟨hr1, hr2⟩ := parse_lcms_tdf_frames_no_mobility tdf_data fs fstop
          mode ms2_only em bins enc hem fl pq2 hr
        rw [hres]
        constructor
        · intro sd hsd
          rcases List.mem_append.mp hsd with hm | hm
          · exact hf1 sd hm
          · exact hr1 sd hm
        · intro sd hsd
          rcases List.mem_append.mp hsd with hm | hm
          · exact hf2 sd hm
          · exact hr2 sd hm

/-- C10: `get_centroid_status` forces the effective exclude-mobility flag
to `True` in profile mode regardless of the caller-supplied value
(including an explicit `False`), while in centroid and raw mode the
caller's flag is returned unchanged; consequently every record produced
by `parse_lcms_tdf` in profile mode — parent or product, in any branch —
has no `mobility_array`. -/
theorem profile_mode_forces_exclude_mobility (em0 : Option Bool)
    (tdf_data : TdfData) (fs fstop : ℤ) (ms2_only : Bool)
    (exclude_mobility : Option Bool) (bins enc : ℕ)
    (parent_scans product_scans : List ScanDict)
    (h : parse_lcms_tdf tdf_data fs fstop Mode.profile ms2_only
      exclude_mobility bins enc = Except.ok (parent_scans, product_scans)) :
    (get_centroid_status Mode.profile em0).2 = some true ∧
    (get_centroid_status Mode.centroid em0).2 = em0 ∧
    (get_centroid_status Mode.raw em0).2 = em0 ∧
    (∀ sd ∈ parent_scans, sd.mobility_array = none) ∧
    (∀ sd ∈ product_scans, sd.mobility_array = none) := by
  unfold parse_lcms_tdf at h
  obtain ⟨h1, h2⟩ := parse_lcms_tdf_frames_no_mobility tdf_data fs fstop
    Mode.profile ms2_only (get_centroid_status Mode.profile exclude_mobility).2
    bins enc rfl (intRange fs fstop) (parent_scans, product_scans) h
  exact ⟨rfl, rfl, rfl, h1, h2⟩

/-- Witness for C10: parsing `dProfileRun` in profile mode with an
explicit caller-supplied `exclude_mobility = False` still forces the
flag to `True` and yields a record without `mobility_array`. -/
theorem profile_mode_forces_exclude_mobility_witness :
    parse_lcms_tdf dProfileRun 1 2 Mode.profile false (some false) 0 64 =
      Except.ok ([dProfileRec 1], []) ∧
    (get_centroid_status Mode.profile (some false)).2 = some true ∧
    (dProfileRec 1).mobility_array = none :=
  ⟨rfl,
   (profile_mode_forces_exclude_mobility (some false) dProfileRun 1 2 false
      (some false) 0 64 [dProfileRec 1] [] rfl).1,
   (profile_mode_forces_exclude_mobility (some false) dProfileRun 1 2 false
      (some false) 0 64 [dProfileRec 1] [] rfl).2.2.2.1 (dProfileRec 1)
     (List.mem_singleton.mpr rfl)⟩
